import Mathlib

/-!
# CI_LAB uplink ingest: `CI_LAB_ReadUpLink` (fsw/src/ci_lab_app.c)

A shallow embedding of the drain loop of the Command Ingest task.  The
function talks to several collaborators that are not part of the file
(socket receive, buffer provider, decoder, libc `malloc`, the TCP mirror
socket, the software bus).  Their answers are taken as parameters: for loop
iteration `i` the record `env i : IterEnv` holds the value every external call
made in that iteration returns.  Each external call site is executed at most
once per iteration, so quantifying over `env` covers every behaviour of the
collaborators.  Every external call is logged as an `Event`, in program
order, so that statements about "what was called" and "what was written" can
be made about the trace.
-/

namespace CI_LAB

/-- One octet on the wire. -/
abbrev Byte := Fin 256

/-- Build-time constants that live in headers outside the file: the macro
`CI_LAB_MAX_INGEST_PKTS` (a small positive `int` constant, compared with the
`int` loop counter, so the counter never overflows) and the bit width of the
unsigned telemetry counters `IngestPackets` / `IngestErrors`. -/
structure Config where
  MAX_INGEST_PKTS : Nat
  counterBits : Nat
deriving DecidableEq, Repr

/-- The status code `CFE_SUCCESS`. -/
def CFE_SUCCESS : Int := 0

/-- A receive buffer handed out by the buffer provider: a non-NULL address
and a capacity. -/
structure Buf where
  addr : Nat
  size : Nat
deriving DecidableEq, Repr

/-- The decoded software-bus message `SBBufPtr->Msg`: the `MsgSize` octets that
start at `(uint8_t *)&SBBufPtr->Msg`. -/
structure Msg where
  bytes : List Byte
deriving DecidableEq, Repr

/-- The value `CFE_MSG_GetSize(&SBBufPtr->Msg, &MsgSize)` stores in `MsgSize`: the
logical size of the message. -/
def CFE_MSG_GetSize (m : Msg) : Nat := m.bytes.length

/-- The four telemetry counters of `CI_LAB_Global.HkTlm.Payload`. -/
structure HkTlm_Payload where
  CommandCounter : Nat
  CommandErrorCounter : Nat
  IngestPackets : Nat
  IngestErrors : Nat
deriving DecidableEq, Repr

/-- The part of `CI_LAB_Global` that `CI_LAB_ReadUpLink` reads or writes.
`NetBufPtr = none` is the NULL pointer. -/
structure GlobalData where
  NetBufPtr : Option Nat
  NetBufSize : Nat
  Payload : HkTlm_Payload
deriving DecidableEq, Repr

/-- The answers of the collaborators to the calls of one loop iteration. -/
structure IterEnv where
  /-- Result of `CI_LAB_GetInputBuffer`: a buffer, or none when the pool is exhausted. -/
  getInputBuffer : Option Buf
  /-- Result of `OS_SocketRecvFrom`: octet count, or a value `<= 0` (timeout, error). -/
  recvFrom : Int
  /-- Status returned by `CI_LAB_DecodeInputMessage`. -/
  decodeStatus : Int
  /-- Message behind `SBBufPtr` when `CI_LAB_DecodeInputMessage` succeeds. -/
  decodeMsg : Msg
  /-- True when `malloc(msgContentSize)` returns a non-NULL pointer. -/
  mallocOk : Bool
  /-- Result of `socket(AF_INET, SOCK_STREAM, 0)`. -/
  socket : Int
  /-- Result of `inet_pton(AF_INET, "127.0.0.1", ..)`. -/
  inet_pton : Int
  /-- Result of `connect(sockfd, ..)`. -/
  connect : Int
  /-- Result of `send(sockfd, &msg_length, 4, 0)` (line 323). -/
  sendMarkerLen : Int
  /-- Result of `send(sockfd, message, strlen(message), 0)` (line 327). -/
  sendMarker : Int
  /-- Result of `send(sockfd, &netMsgSize, 4, 0)` (line 336). -/
  sendMsgSize : Int
  /-- Result of `send(sockfd, bytePtr, MsgSize, 0)` (line 344). -/
  sendMsg : Int
  /-- Status returned by `CFE_SB_TransmitBuffer(SBBufPtr, false)`. -/
  transmit : Int
deriving DecidableEq, Repr

/-- The texts written with `CFE_ES_WriteToSysLog` in `CI_LAB_ReadUpLink`. -/
inductive SysLogText
  | beforeTransmit
  | mallocFailed
  | socketFailed
  | invalidAddress
  | connectionFailed
  | markerLenFailed
  | markerFailed
  | markerSent
  | msgSizeFailed
  | msgDataFailed
deriving DecidableEq, Repr

/-- External calls, in the order the program makes them. -/
inductive Event
  | GetInputBuffer (result : Option Buf)
  | SocketRecvFrom (buf : Nat) (size : Nat) (status : Int)
  | PerfLogEntry
  | PerfLogExit
  | DecodeInputMessage (buf : Nat) (len : Int) (status : Int)
  | WriteToSysLog (text : SysLogText)
  | malloc (size : Nat) (ok : Bool)
  | socket (fd : Int)
  | inet_pton (result : Int)
  | connect (result : Int)
  | send (data : List Byte) (result : Int)
  | close
  | free
  | TransmitBuffer (m : Msg) (status : Int)
  | SendEvent_INGEST_SEND_ERR (status : Int)
deriving DecidableEq, Repr

/-- How one execution of the loop body ends: it falls through to `i++`, leaves
the loop with `break`, or leaves the function with `return`. -/
inductive Flow
  | next
  | brk
  | ret
deriving DecidableEq, Repr

/-- Result of one execution of the loop body. -/
structure Outcome where
  g : GlobalData
  events : List Event
  flow : Flow
deriving DecidableEq, Repr

/-- The increment `x++` on an unsigned counter of `w` bits. -/
def incr (w : Nat) (x : Nat) : Nat := (x + 1) % 2 ^ w

/-- The four octets in memory of `htonl(x)` for a value converted to
`uint32_t`: most significant first. -/
def htonl (x : Nat) : List Byte :=
  [⟨x % 2 ^ 32 / 2 ^ 24 % 256, Nat.mod_lt _ (by decide)⟩,
   ⟨x % 2 ^ 32 / 2 ^ 16 % 256, Nat.mod_lt _ (by decide)⟩,
   ⟨x % 2 ^ 32 / 2 ^ 8 % 256, Nat.mod_lt _ (by decide)⟩,
   ⟨x % 2 ^ 32 % 256, Nat.mod_lt _ (by decide)⟩]

/-- The marker `const char *message = "\xAA\xAA\xAA\xAA"` (line 262); `strlen(message)`
is its length, 4. -/
def message : List Byte := [0xAA, 0xAA, 0xAA, 0xAA]

/-- The value of `size_t msgContentSize = (unsigned int)MsgSize * 3 + 1` (line 271):
arithmetic in 32-bit `unsigned int`. -/
def msgContentSize (MsgSize : Nat) : Nat := (MsgSize % 2 ^ 32 * 3 + 1) % 2 ^ 32

/-- Modelled from the spec: `CI_LAB_GetInputBuffer` (declared in
ci_lab_decode.h, defined outside the file), called with the addresses of the
two slot fields.  "Request a buffer from the Buffer Provider and store it in
the slot; if the provider has none available, the slot remains empty." -/
def CI_LAB_GetInputBuffer (r : Option Buf) (g : GlobalData) : GlobalData :=
  match r with
  | some b => { g with NetBufPtr := some b.addr, NetBufSize := b.size }
  | none => g

/-- Lines 321-332: the marker frame.  A failed send is logged and nothing
else; the marker octets are sent only when the length went out. -/
def sendMarkerFrame (e : IterEnv) : List Event :=
  if e.sendMarkerLen < 0 then
    [Event.send (htonl message.length) e.sendMarkerLen,
     Event.WriteToSysLog SysLogText.markerLenFailed]
  else if e.sendMarker < 0 then
    [Event.send (htonl message.length) e.sendMarkerLen,
     Event.send message e.sendMarker,
     Event.WriteToSysLog SysLogText.markerFailed]
  else
    [Event.send (htonl message.length) e.sendMarkerLen,
     Event.send message e.sendMarker,
     Event.WriteToSysLog SysLogText.markerSent]

/-- Lines 300-354: the mirror forwarder for one decoded message.  The second
component is true when the function executes `return` (lines 340, 348). -/
def mirrorForward (e : IterEnv) (m : Msg) : List Event × Bool :=
  if e.socket < 0 then
    ([Event.socket e.socket, Event.WriteToSysLog SysLogText.socketFailed], false)
  else if e.inet_pton ≤ 0 then
    ([Event.socket e.socket, Event.inet_pton e.inet_pton,
      Event.WriteToSysLog SysLogText.invalidAddress, Event.close], false)
  else if e.connect < 0 then
    ([Event.socket e.socket, Event.inet_pton e.inet_pton, Event.connect e.connect,
      Event.WriteToSysLog SysLogText.connectionFailed, Event.close], false)
  else
    let opened := [Event.socket e.socket, Event.inet_pton e.inet_pton,
      Event.connect e.connect] ++ sendMarkerFrame e
    if e.sendMsgSize < 0 then
      (opened ++ [Event.send (htonl (CFE_MSG_GetSize m)) e.sendMsgSize,
        Event.WriteToSysLog SysLogText.msgSizeFailed, Event.close, Event.free], true)
    else if e.sendMsg < 0 then
      (opened ++ [Event.send (htonl (CFE_MSG_GetSize m)) e.sendMsgSize,
        Event.send m.bytes e.sendMsg,
        Event.WriteToSysLog SysLogText.msgDataFailed, Event.close, Event.free], true)
    else
      (opened ++ [Event.send (htonl (CFE_MSG_GetSize m)) e.sendMsgSize,
        Event.send m.bytes e.sendMsg, Event.close], false)

/-- Lines 253-357 and 360-370: the branch taken when the datagram decoded. -/
def onDecoded (cfg : Config) (e : IterEnv) (g : GlobalData) (pre : List Event) : Outcome :=
  let g2 : GlobalData :=
    { g with Payload := { g.Payload with
        IngestPackets := incr cfg.counterBits g.Payload.IngestPackets } }
  let m := e.decodeMsg
  let pre2 := pre ++ [Event.WriteToSysLog SysLogText.beforeTransmit,
    Event.malloc (msgContentSize (CFE_MSG_GetSize m)) e.mallocOk]
  if e.mallocOk = false then
    ⟨g2, pre2 ++ [Event.WriteToSysLog SysLogText.mallocFailed], Flow.ret⟩
  else
    match mirrorForward e m with
    | (mev, true) => ⟨g2, pre2 ++ mev, Flow.ret⟩
    | (mev, false) =>
      let sent := pre2 ++ mev ++ [Event.TransmitBuffer m e.transmit, Event.PerfLogExit]
      if e.transmit = CFE_SUCCESS then
        ⟨{ g2 with NetBufPtr := none, NetBufSize := 0 }, sent, Flow.next⟩
      else
        ⟨g2, sent ++ [Event.SendEvent_INGEST_SEND_ERR e.transmit], Flow.next⟩

/-- Lines 243-375: the receive attempt and what follows it, entered with a
buffer `p` in the slot; `pre` holds the events of this iteration so far. -/
def fromRecv (cfg : Config) (e : IterEnv) (g : GlobalData) (p : Nat) (pre : List Event) :
    Outcome :=
  let recvd := pre ++ [Event.SocketRecvFrom p g.NetBufSize e.recvFrom]
  if 0 < e.recvFrom then
    let decoded := recvd ++ [Event.PerfLogEntry,
      Event.DecodeInputMessage p e.recvFrom e.decodeStatus]
    if e.decodeStatus ≠ CFE_SUCCESS then
      ⟨{ g with Payload := { g.Payload with
            IngestErrors := incr cfg.counterBits g.Payload.IngestErrors } },
        decoded ++ [Event.PerfLogExit, Event.SendEvent_INGEST_SEND_ERR e.decodeStatus],
        Flow.next⟩
    else onDecoded cfg e g decoded
  else ⟨g, recvd, Flow.brk⟩

/-- Lines 233-236: fetch a buffer when none is pending. -/
def acquire (e : IterEnv) (g : GlobalData) : GlobalData × List Event :=
  if g.NetBufPtr = none then
    (CI_LAB_GetInputBuffer e.getInputBuffer g, [Event.GetInputBuffer e.getInputBuffer])
  else (g, [])

/-- Lines 233-375: one execution of the body of the `for` loop. -/
def loopBody (cfg : Config) (e : IterEnv) (g : GlobalData) : Outcome :=
  let acq := acquire e g
  match acq.1.NetBufPtr with
  | none => ⟨acq.1, acq.2, Flow.brk⟩
  | some p => fromRecv cfg e acq.1 p acq.2

/-- The `for (i = 0; i <= CI_LAB_MAX_INGEST_PKTS; i++)` loop from index `i`
with `n` iterations left (`n = CI_LAB_MAX_INGEST_PKTS + 1 - i`), threading
the global data and the trace. -/
def loopFrom (cfg : Config) (env : Nat → IterEnv) :
    Nat → Nat → GlobalData × List Event → GlobalData × List Event
  | _, 0, s => s
  | i, n + 1, s =>
    let o := loopBody cfg (env i) s.1
    match o.flow with
    | Flow.next => loopFrom cfg env (i + 1) n (o.g, s.2 ++ o.events)
    | Flow.brk => (o.g, s.2 ++ o.events)
    | Flow.ret => (o.g, s.2 ++ o.events)

/-- The function `CI_LAB_ReadUpLink` (lines 222-377): final global data and the trace of
external calls. -/
def CI_LAB_ReadUpLink (cfg : Config) (env : Nat → IterEnv) (g : GlobalData) :
    GlobalData × List Event :=
  loopFrom cfg env 0 (cfg.MAX_INGEST_PKTS + 1) (g, [])

/-! ## Observations on a trace -/

/-- Number of receive attempts (calls of `OS_SocketRecvFrom`) in a trace. -/
def recvAttempts : List Event → Nat
  | [] => 0
  | Event.SocketRecvFrom _ _ _ :: tr => recvAttempts tr + 1
  | _ :: tr => recvAttempts tr

/-- Number of calls of the buffer provider in a trace. -/
def providerCalls : List Event → Nat
  | [] => 0
  | Event.GetInputBuffer _ :: tr => providerCalls tr + 1
  | _ :: tr => providerCalls tr

/-- Number of calls of the bus publisher (`CFE_SB_TransmitBuffer`) in a trace. -/
def publisherCalls : List Event → Nat
  | [] => 0
  | Event.TransmitBuffer _ _ :: tr => publisherCalls tr + 1
  | _ :: tr => publisherCalls tr

/-- Number of calls of the decoder in a trace. -/
def decoderCalls : List Event → Nat
  | [] => 0
  | Event.DecodeInputMessage _ _ _ :: tr => decoderCalls tr + 1
  | _ :: tr => decoderCalls tr

/-- Number of calls that touch the mirror socket (`socket`, `inet_pton`,
`connect`, `send`, `close`) in a trace. -/
def mirrorCalls : List Event → Nat
  | [] => 0
  | Event.socket _ :: tr => mirrorCalls tr + 1
  | Event.inet_pton _ :: tr => mirrorCalls tr + 1
  | Event.connect _ :: tr => mirrorCalls tr + 1
  | Event.send _ _ :: tr => mirrorCalls tr + 1
  | Event.close :: tr => mirrorCalls tr + 1
  | _ :: tr => mirrorCalls tr

/-- Number of `send` calls on the mirror socket in a trace. -/
def sendCalls : List Event → Nat
  | [] => 0
  | Event.send _ _ :: tr => sendCalls tr + 1
  | _ :: tr => sendCalls tr

/-- Number of error reports in a trace: event-service error events and
system-log lines that report a failure (all texts except the two progress
lines "before SB_Transmit" and "Sent message"). -/
def errorReports : List Event → Nat
  | [] => 0
  | Event.SendEvent_INGEST_SEND_ERR _ :: tr => errorReports tr + 1
  | Event.WriteToSysLog SysLogText.beforeTransmit :: tr => errorReports tr
  | Event.WriteToSysLog SysLogText.markerSent :: tr => errorReports tr
  | Event.WriteToSysLog _ :: tr => errorReports tr + 1
  | _ :: tr => errorReports tr

/-- The octets a `send` that returned `result` put on the connection: the
first `result` octets of its buffer, nothing when it failed. -/
def sentBytes (data : List Byte) (result : Int) : List Byte :=
  if 0 ≤ result then data.take result.toNat else []

/-- The octet stream written to the mirror connection by a trace. -/
def mirrorBytes : List Event → List Byte
  | [] => []
  | Event.send d r :: tr => sentBytes d r ++ mirrorBytes tr
  | _ :: tr => mirrorBytes tr

/-- The buffers (address, capacity) given to the receive attempts of a trace,
in order. -/
def recvBuffers : List Event → List (Nat × Nat)
  | [] => []
  | Event.SocketRecvFrom p n _ :: tr => (p, n) :: recvBuffers tr
  | _ :: tr => recvBuffers tr

/-! ## Conditions on the answers of one iteration -/

/-- The mirror connection is established: `socket`, `inet_pton` and `connect`
all succeed (lines 301-320). -/
def connected (e : IterEnv) : Prop := 0 ≤ e.socket ∧ 0 < e.inet_pton ∧ 0 ≤ e.connect

instance (e : IterEnv) : Decidable (connected e) := by
  unfold connected; infer_instance

/-- The send of the message length fails, or it succeeds and the send of the
message octets fails (lines 336, 344). -/
def msgSendFails (e : IterEnv) : Prop :=
  e.sendMsgSize < 0 ∨ (0 ≤ e.sendMsgSize ∧ e.sendMsg < 0)

instance (e : IterEnv) : Decidable (msgSendFails e) := by
  unfold msgSendFails; infer_instance

/-- The send of the marker length fails, or it succeeds and the send of the
marker octets fails (lines 323, 327). -/
def markerSendFails (e : IterEnv) : Prop :=
  e.sendMarkerLen < 0 ∨ (0 ≤ e.sendMarkerLen ∧ e.sendMarker < 0)

instance (e : IterEnv) : Decidable (markerSendFails e) := by
  unfold markerSendFails; infer_instance

/-- The datagram decodes and the mirror step makes the function return: the
hex-dump allocation fails, or the connection is established and a send of the
message frame fails. -/
def mirrorAbort (e : IterEnv) : Prop :=
  e.decodeStatus = CFE_SUCCESS ∧
    (e.mallocOk = false ∨ (connected e ∧ msgSendFails e))

instance (e : IterEnv) : Decidable (mirrorAbort e) := by
  unfold mirrorAbort; infer_instance

/-- The datagram of the iteration is received, decodes, is mirrored without a
send failure that makes the function return, and is published successfully. -/
def goodAttempt (e : IterEnv) : Prop :=
  0 < e.recvFrom ∧ e.decodeStatus = CFE_SUCCESS ∧ e.mallocOk = true ∧
    ¬ (connected e ∧ msgSendFails e) ∧ e.transmit = CFE_SUCCESS

instance (e : IterEnv) : Decidable (goodAttempt e) := by
  unfold goodAttempt; infer_instance

/-- The slot holds a buffer when the receive of iteration `e` is reached: one
is pending already, or the provider supplies one. -/
def bufferReady (e : IterEnv) (g : GlobalData) : Prop :=
  g.NetBufPtr ≠ none ∨ e.getInputBuffer ≠ none

instance (e : IterEnv) (g : GlobalData) : Decidable (bufferReady e g) := by
  unfold bufferReady; infer_instance

/-- The buffer (address, capacity) in the slot when the receive of iteration
`e` is reached. -/
def slotAtRecv (e : IterEnv) (g : GlobalData) : Option Nat × Nat :=
  ((acquire e g).1.NetBufPtr, (acquire e g).1.NetBufSize)

/-! ## The reader on the mirror destination (from the spec) -/

/-- The big-endian 4-octet encoding `be32(n)` of the wire format, for
`n < 2^32`. -/
def be32 (n : Nat) : List Byte :=
  [⟨n / 2 ^ 24 % 256, Nat.mod_lt _ (by decide)⟩,
   ⟨n / 2 ^ 16 % 256, Nat.mod_lt _ (by decide)⟩,
   ⟨n / 2 ^ 8 % 256, Nat.mod_lt _ (by decide)⟩,
   ⟨n % 256, Nat.mod_lt _ (by decide)⟩]

/-- A reader of one length-prefixed field: a 4-octet big-endian length `n`,
then `n` octets.  Returns the field and the rest of the stream. -/
def readField : List Byte → Option (List Byte × List Byte)
  | a :: b :: c :: d :: rest =>
    let n := a.val * 2 ^ 24 + b.val * 2 ^ 16 + c.val * 2 ^ 8 + d.val
    if n ≤ rest.length then some (rest.take n, rest.drop n) else none
  | _ => none

/-- A reader of two consecutive length-prefixed fields. -/
def readFrame (s : List Byte) : Option (List Byte × List Byte × List Byte) :=
  match readField s with
  | none => none
  | some (f1, r1) =>
    match readField r1 with
    | none => none
    | some (f2, r2) => some (f1, f2, r2)

/-! ## Names for intermediate results of the decoded branch -/

/-- The global data after `IngestPackets++` (line 255). -/
def counted (cfg : Config) (g : GlobalData) : GlobalData :=
  { g with Payload := { g.Payload with
      IngestPackets := incr cfg.counterBits g.Payload.IngestPackets } }

/-- The events of lines 257-274, after the events `pre` of the iteration so far. -/
def allocated (e : IterEnv) (pre : List Event) : List Event :=
  pre ++ [Event.WriteToSysLog SysLogText.beforeTransmit,
    Event.malloc (msgContentSize (CFE_MSG_GetSize e.decodeMsg)) e.mallocOk]

/-- The events of an iteration up to and including the allocation of the
hex-dump buffer, for a buffer `p` in the slot. -/
def decodedEvents (e : IterEnv) (g : GlobalData) (p : Nat) : List Event :=
  allocated e ((acquire e g).2 ++ [Event.SocketRecvFrom p (acquire e g).1.NetBufSize e.recvFrom,
    Event.PerfLogEntry, Event.DecodeInputMessage p e.recvFrom e.decodeStatus])

/-! ## Sample inputs -/

/-- A software-bus message of 12 octets. -/
def sampleMsg : Msg := ⟨[0x18, 0x06, 0xC0, 0x00, 0x00, 0x05, 0x00, 0x00, 0x01, 0x02, 0x03, 0x04]⟩

/-- Answers of an iteration in which everything succeeds in full: a buffer is
supplied, a 12-octet datagram arrives and decodes, the mirror connection is
set up, every send is complete and the publish succeeds. -/
def goodIter : IterEnv :=
  { getInputBuffer := some ⟨4096, 2048⟩, recvFrom := 12, decodeStatus := 0,
    decodeMsg := sampleMsg, mallocOk := true, socket := 3, inet_pton := 1, connect := 0,
    sendMarkerLen := 4, sendMarker := 4, sendMsgSize := 4, sendMsg := 12, transmit := 0 }

/-- Answers of an iteration in which a buffer is supplied and the receive
times out. -/
def idleIter : IterEnv := { goodIter with recvFrom := -1 }

/-- Global data right after `CI_LAB_TaskInit`: empty slot, zeroed counters. -/
def initGlobal : GlobalData := ⟨none, 0, ⟨0, 0, 0, 0⟩⟩

/-- A configuration with `CI_LAB_MAX_INGEST_PKTS = 2` and 32-bit counters. -/
def smallCfg : Config := ⟨2, 32⟩

/-- Answers of an iteration in which a buffer is supplied and a datagram
arrives that the decoder rejects. -/
def badIter : IterEnv := { goodIter with decodeStatus := -1 }

/-- Two datagrams that fail to decode, then silence. -/
def twoBad (i : Nat) : IterEnv := if i < 2 then badIter else idleIter

/-- Answers of an iteration in which the send of the message length fails. -/
def sizeSendFailIter : IterEnv := { goodIter with sendMsgSize := -1 }

/-- Answers of an iteration in which the send of the marker length fails and
everything else succeeds. -/
def markerFailIter : IterEnv := { goodIter with sendMarkerLen := -1 }

/-- Answers of an iteration in which the publish fails. -/
def publishFailIter : IterEnv := { goodIter with transmit := -1 }

/-- Answers of an iteration in which `connect` fails. -/
def connectFailIter : IterEnv := { goodIter with connect := -1 }

/-- One datagram that goes through, then silence; the buffer provider supplies
a buffer whenever it is asked. -/
def oneGood (i : Nat) : IterEnv := if i = 0 then goodIter else idleIter

/-! ## Basic facts -/

theorem recvAttempts_append (a b : List Event) :
    recvAttempts (a ++ b) = recvAttempts a + recvAttempts b := by
  induction a with
  | nil => simp [recvAttempts]
  | cons x xs ih => cases x <;> simp [recvAttempts, ih]; omega

theorem providerCalls_append (a b : List Event) :
    providerCalls (a ++ b) = providerCalls a + providerCalls b := by
  induction a with
  | nil => simp [providerCalls]
  | cons x xs ih => cases x <;> simp [providerCalls, ih]; omega

theorem publisherCalls_append (a b : List Event) :
    publisherCalls (a ++ b) = publisherCalls a + publisherCalls b := by
  induction a with
  | nil => simp [publisherCalls]
  | cons x xs ih => cases x <;> simp [publisherCalls, ih]; omega

theorem decoderCalls_append (a b : List Event) :
    decoderCalls (a ++ b) = decoderCalls a + decoderCalls b := by
  induction a with
  | nil => simp [decoderCalls]
  | cons x xs ih => cases x <;> simp [decoderCalls, ih]; omega

theorem mirrorCalls_append (a b : List Event) :
    mirrorCalls (a ++ b) = mirrorCalls a + mirrorCalls b := by
  induction a with
  | nil => simp [mirrorCalls]
  | cons x xs ih => cases x <;> simp [mirrorCalls, ih] <;> omega

theorem sendCalls_append (a b : List Event) :
    sendCalls (a ++ b) = sendCalls a + sendCalls b := by
  induction a with
  | nil => simp [sendCalls]
  | cons x xs ih => cases x <;> simp [sendCalls, ih]; omega

theorem errorReports_append (a b : List Event) :
    errorReports (a ++ b) = errorReports a + errorReports b := by
  induction a with
  | nil => simp [errorReports]
  | cons x xs ih =>
    cases x with
    | WriteToSysLog t => cases t <;> simp [errorReports, ih] <;> omega
    | SendEvent_INGEST_SEND_ERR st => simp [errorReports, ih]; omega
    | _ => simp [errorReports, ih]

theorem mirrorBytes_append (a b : List Event) :
    mirrorBytes (a ++ b) = mirrorBytes a ++ mirrorBytes b := by
  induction a with
  | nil => simp [mirrorBytes]
  | cons x xs ih => cases x <;> simp [mirrorBytes, ih]

theorem recvBuffers_append (a b : List Event) :
    recvBuffers (a ++ b) = recvBuffers a ++ recvBuffers b := by
  induction a with
  | nil => simp [recvBuffers]
  | cons x xs ih => cases x <;> simp [recvBuffers, ih]

/-! ## The loop body, case by case -/

theorem loopBody_none (cfg : Config) (e : IterEnv) (g : GlobalData)
    (hg : g.NetBufPtr = none) (hb : e.getInputBuffer = none) :
    loopBody cfg e g = ⟨g, [Event.GetInputBuffer none], Flow.brk⟩ := by
  simp [loopBody, acquire, hg, hb, CI_LAB_GetInputBuffer]

theorem loopBody_acquire (cfg : Config) (e : IterEnv) (g : GlobalData) (b : Buf)
    (hg : g.NetBufPtr = none) (hb : e.getInputBuffer = some b) :
    loopBody cfg e g =
      fromRecv cfg e { g with NetBufPtr := some b.addr, NetBufSize := b.size } b.addr
        [Event.GetInputBuffer (some b)] := by
  simp [loopBody, acquire, hg, hb, CI_LAB_GetInputBuffer]

theorem loopBody_pending (cfg : Config) (e : IterEnv) (g : GlobalData) (p : Nat)
    (hg : g.NetBufPtr = some p) :
    loopBody cfg e g = fromRecv cfg e g p [] := by
  simp [loopBody, acquire, hg]

theorem acquire_payload (e : IterEnv) (g : GlobalData) :
    (acquire e g).1.Payload = g.Payload := by
  unfold acquire CI_LAB_GetInputBuffer
  split_ifs
  · cases e.getInputBuffer <;> rfl
  · rfl

theorem loopBody_ready (cfg : Config) (e : IterEnv) (g : GlobalData) (h : bufferReady e g) :
    ∃ p, (acquire e g).1.NetBufPtr = some p ∧
      loopBody cfg e g = fromRecv cfg e (acquire e g).1 p (acquire e g).2 := by
  cases hg : g.NetBufPtr with
  | some p => exact ⟨p, by simp [acquire, hg], by simp [loopBody, acquire, hg]⟩
  | none =>
    cases hb : e.getInputBuffer with
    | none => simp [bufferReady, hg, hb] at h
    | some b =>
      exact ⟨b.addr, by simp [acquire, hg, hb, CI_LAB_GetInputBuffer],
        by simp [loopBody, acquire, hg, hb, CI_LAB_GetInputBuffer]⟩

theorem acquire_pending (e : IterEnv) (g : GlobalData) (h : g.NetBufPtr ≠ none) :
    acquire e g = (g, []) := by
  simp [acquire, h]

/-! ## Receive attempts -/

theorem recvAttempts_sendMarkerFrame (e : IterEnv) : recvAttempts (sendMarkerFrame e) = 0 := by
  unfold sendMarkerFrame
  split_ifs <;> simp [recvAttempts]

theorem recvAttempts_mirrorForward (e : IterEnv) (m : Msg) :
    recvAttempts (mirrorForward e m).1 = 0 := by
  unfold mirrorForward
  split_ifs <;> simp [recvAttempts, recvAttempts_append, recvAttempts_sendMarkerFrame]

theorem recvAttempts_onDecoded (cfg : Config) (e : IterEnv) (g : GlobalData) (pre : List Event) :
    recvAttempts (onDecoded cfg e g pre).events = recvAttempts pre := by
  have h := recvAttempts_mirrorForward e e.decodeMsg
  unfold onDecoded
  rcases hm : mirrorForward e e.decodeMsg with ⟨mev, b⟩
  rw [hm] at h
  cases b <;> simp only [] <;> split_ifs <;>
    simp_all [recvAttempts, recvAttempts_append]

theorem recvAttempts_fromRecv (cfg : Config) (e : IterEnv) (g : GlobalData) (p : Nat)
    (pre : List Event) :
    recvAttempts (fromRecv cfg e g p pre).events = recvAttempts pre + 1 := by
  unfold fromRecv
  split_ifs <;> simp [recvAttempts, recvAttempts_append, recvAttempts_onDecoded]

theorem recvAttempts_loopBody_le (cfg : Config) (e : IterEnv) (g : GlobalData) :
    recvAttempts (loopBody cfg e g).events ≤ 1 := by
  cases hg : g.NetBufPtr with
  | none =>
    cases hb : e.getInputBuffer with
    | none => simp [loopBody_none cfg e g hg hb, recvAttempts]
    | some b => simp [loopBody_acquire cfg e g b hg hb, recvAttempts_fromRecv, recvAttempts]
  | some p => simp [loopBody_pending cfg e g p hg, recvAttempts_fromRecv, recvAttempts]

theorem recvAttempts_loopBody_ready (cfg : Config) (e : IterEnv) (g : GlobalData)
    (h : bufferReady e g) : recvAttempts (loopBody cfg e g).events = 1 := by
  obtain ⟨p, -, hb⟩ := loopBody_ready cfg e g h
  rw [hb, recvAttempts_fromRecv]
  unfold acquire
  split_ifs <;> simp [recvAttempts]

theorem recvAttempts_loopFrom_le (cfg : Config) (env : Nat → IterEnv) (n : Nat) :
    ∀ (i : Nat) (s : GlobalData × List Event),
      recvAttempts (loopFrom cfg env i n s).2 ≤ recvAttempts s.2 + n := by
  induction n with
  | zero => intro i s; simp [loopFrom]
  | succ n ih =>
    intro i s
    have hb := recvAttempts_loopBody_le cfg (env i) s.1
    unfold loopFrom
    simp only []
    split
    · have := ih (i + 1) ((loopBody cfg (env i) s.1).g, s.2 ++ (loopBody cfg (env i) s.1).events)
      simp only [recvAttempts_append] at this
      omega
    · simp only [recvAttempts_append]; omega
    · simp only [recvAttempts_append]; omega

/-! ## The mirror forwarder -/

theorem mirrorForward_returns (e : IterEnv) (m : Msg) :
    (mirrorForward e m).2 = true ↔ (connected e ∧ msgSendFails e) := by
  unfold mirrorForward connected msgSendFails
  split_ifs <;> simp <;> omega

theorem mirrorForward_not_connected (e : IterEnv) (m : Msg) (h : ¬ connected e) :
    sendCalls (mirrorForward e m).1 = 0 ∧ mirrorBytes (mirrorForward e m).1 = [] := by
  unfold connected at h
  unfold mirrorForward
  split_ifs <;> simp [sendCalls, mirrorBytes] <;> omega

theorem publisherCalls_sendMarkerFrame (e : IterEnv) :
    publisherCalls (sendMarkerFrame e) = 0 := by
  unfold sendMarkerFrame
  split_ifs <;> simp [publisherCalls]

theorem publisherCalls_mirrorForward (e : IterEnv) (m : Msg) :
    publisherCalls (mirrorForward e m).1 = 0 := by
  unfold mirrorForward
  split_ifs <;> simp [publisherCalls, publisherCalls_append, publisherCalls_sendMarkerFrame]

theorem providerCalls_sendMarkerFrame (e : IterEnv) :
    providerCalls (sendMarkerFrame e) = 0 := by
  unfold sendMarkerFrame
  split_ifs <;> simp [providerCalls]

theorem providerCalls_mirrorForward (e : IterEnv) (m : Msg) :
    providerCalls (mirrorForward e m).1 = 0 := by
  unfold mirrorForward
  split_ifs <;> simp [providerCalls, providerCalls_append, providerCalls_sendMarkerFrame]

theorem recvBuffers_sendMarkerFrame (e : IterEnv) :
    recvBuffers (sendMarkerFrame e) = [] := by
  unfold sendMarkerFrame
  split_ifs <;> simp [recvBuffers]

theorem recvBuffers_mirrorForward (e : IterEnv) (m : Msg) :
    recvBuffers (mirrorForward e m).1 = [] := by
  unfold mirrorForward
  split_ifs <;> simp [recvBuffers, recvBuffers_append, recvBuffers_sendMarkerFrame]

/-! ## The branches after the receive -/

theorem fromRecv_nodata (cfg : Config) (e : IterEnv) (g : GlobalData) (p : Nat)
    (pre : List Event) (h : e.recvFrom ≤ 0) :
    fromRecv cfg e g p pre =
      ⟨g, pre ++ [Event.SocketRecvFrom p g.NetBufSize e.recvFrom], Flow.brk⟩ := by
  have : ¬ 0 < e.recvFrom := by omega
  simp [fromRecv, this]

theorem fromRecv_decodeFail (cfg : Config) (e : IterEnv) (g : GlobalData) (p : Nat)
    (pre : List Event) (h : 0 < e.recvFrom) (hd : e.decodeStatus ≠ CFE_SUCCESS) :
    fromRecv cfg e g p pre =
      ⟨{ g with Payload := { g.Payload with
            IngestErrors := incr cfg.counterBits g.Payload.IngestErrors } },
        pre ++ [Event.SocketRecvFrom p g.NetBufSize e.recvFrom, Event.PerfLogEntry,
          Event.DecodeInputMessage p e.recvFrom e.decodeStatus, Event.PerfLogExit,
          Event.SendEvent_INGEST_SEND_ERR e.decodeStatus],
        Flow.next⟩ := by
  simp [fromRecv, h, hd]

theorem fromRecv_decoded (cfg : Config) (e : IterEnv) (g : GlobalData) (p : Nat)
    (pre : List Event) (h : 0 < e.recvFrom) (hd : e.decodeStatus = CFE_SUCCESS) :
    fromRecv cfg e g p pre =
      onDecoded cfg e g (pre ++ [Event.SocketRecvFrom p g.NetBufSize e.recvFrom,
        Event.PerfLogEntry, Event.DecodeInputMessage p e.recvFrom e.decodeStatus]) := by
  simp [fromRecv, h, hd]

theorem onDecoded_mallocFail (cfg : Config) (e : IterEnv) (g : GlobalData) (pre : List Event)
    (h : e.mallocOk = false) :
    onDecoded cfg e g pre =
      ⟨counted cfg g, allocated e pre ++ [Event.WriteToSysLog SysLogText.mallocFailed],
        Flow.ret⟩ := by
  simp [onDecoded, h, counted, allocated]

theorem onDecoded_abort (cfg : Config) (e : IterEnv) (g : GlobalData) (pre : List Event)
    (h : e.mallocOk = true) (hc : connected e) (hs : msgSendFails e) :
    onDecoded cfg e g pre =
      ⟨counted cfg g, allocated e pre ++ (mirrorForward e e.decodeMsg).1, Flow.ret⟩ := by
  have hm := (mirrorForward_returns e e.decodeMsg).mpr ⟨hc, hs⟩
  unfold onDecoded
  rcases hmf : mirrorForward e e.decodeMsg with ⟨mev, b⟩
  rw [hmf] at hm
  simp at hm
  subst hm
  simp [h, hmf, counted, allocated]

theorem onDecoded_published (cfg : Config) (e : IterEnv) (g : GlobalData) (pre : List Event)
    (h : e.mallocOk = true) (hm : ¬ (connected e ∧ msgSendFails e))
    (ht : e.transmit = CFE_SUCCESS) :
    onDecoded cfg e g pre =
      ⟨{ counted cfg g with NetBufPtr := none, NetBufSize := 0 },
        allocated e pre ++ (mirrorForward e e.decodeMsg).1 ++
          [Event.TransmitBuffer e.decodeMsg e.transmit, Event.PerfLogExit],
        Flow.next⟩ := by
  have hm2 : (mirrorForward e e.decodeMsg).2 = false := by
    rw [← Bool.not_eq_true, mirrorForward_returns]; exact hm
  unfold onDecoded
  rcases hmf : mirrorForward e e.decodeMsg with ⟨mev, b⟩
  rw [hmf] at hm2
  simp at hm2
  subst hm2
  simp [h, ht, hmf, counted, allocated]

theorem onDecoded_publishFail (cfg : Config) (e : IterEnv) (g : GlobalData) (pre : List Event)
    (h : e.mallocOk = true) (hm : ¬ (connected e ∧ msgSendFails e))
    (ht : e.transmit ≠ CFE_SUCCESS) :
    onDecoded cfg e g pre =
      ⟨counted cfg g,
        allocated e pre ++ (mirrorForward e e.decodeMsg).1 ++
          [Event.TransmitBuffer e.decodeMsg e.transmit, Event.PerfLogExit,
           Event.SendEvent_INGEST_SEND_ERR e.transmit],
        Flow.next⟩ := by
  have hm2 : (mirrorForward e e.decodeMsg).2 = false := by
    rw [← Bool.not_eq_true, mirrorForward_returns]; exact hm
  unfold onDecoded
  rcases hmf : mirrorForward e e.decodeMsg with ⟨mev, b⟩
  rw [hmf] at hm2
  simp at hm2
  subst hm2
  simp [h, ht, hmf, counted, allocated]

theorem loopBody_flow_next (cfg : Config) (e : IterEnv) (g : GlobalData)
    (hb : bufferReady e g) (hr : 0 < e.recvFrom) (ha : ¬ mirrorAbort e) :
    (loopBody cfg e g).flow = Flow.next := by
  obtain ⟨p, -, hbody⟩ := loopBody_ready cfg e g hb
  rw [hbody]
  by_cases hd : e.decodeStatus = CFE_SUCCESS
  · have hm : e.mallocOk = true ∧ ¬ (connected e ∧ msgSendFails e) := by
      unfold mirrorAbort at ha
      constructor
      · cases hmo : e.mallocOk with
        | true => rfl
        | false => exact absurd ⟨hd, Or.inl hmo⟩ ha
      · intro hc; exact ha ⟨hd, Or.inr hc⟩
    rw [fromRecv_decoded cfg e _ p _ hr hd]
    by_cases ht : e.transmit = CFE_SUCCESS
    · rw [onDecoded_published cfg e _ _ hm.1 hm.2 ht]
    · rw [onDecoded_publishFail cfg e _ _ hm.1 hm.2 ht]
  · rw [fromRecv_decodeFail cfg e _ p _ hr hd]

theorem recvAttempts_loopFrom_full (cfg : Config) (env : Nat → IterEnv) (n : Nat) :
    ∀ (i : Nat) (s : GlobalData × List Event),
      (∀ k, k < n → (env (i + k)).getInputBuffer ≠ none ∧ 0 < (env (i + k)).recvFrom ∧
        ¬ mirrorAbort (env (i + k))) →
      recvAttempts (loopFrom cfg env i n s).2 = recvAttempts s.2 + n := by
  induction n with
  | zero => intro i s _; simp [loopFrom]
  | succ n ih =>
    intro i s h
    have h0 := h 0 (Nat.succ_pos n)
    simp only [Nat.add_zero] at h0
    have hready : bufferReady (env i) s.1 := Or.inr h0.1
    have hflow := loopBody_flow_next cfg (env i) s.1 hready h0.2.1 h0.2.2
    have hcount := recvAttempts_loopBody_ready cfg (env i) s.1 hready
    unfold loopFrom
    simp only [hflow]
    rw [ih (i + 1) _ (fun k hk => by
      have := h (k + 1) (Nat.succ_lt_succ hk)
      rwa [show i + (k + 1) = i + 1 + k by omega] at this)]
    simp only [recvAttempts_append, hcount]
    omega

/-- C1: one invocation of `CI_LAB_ReadUpLink` yields a final state (the
function is total) after at most `CI_LAB_MAX_INGEST_PKTS + 1` calls of
`OS_SocketRecvFrom`, whatever the collaborators answer; and when in every
iteration a buffer is supplied, a datagram is received and the mirror step
does not make the function return, exactly `CI_LAB_MAX_INGEST_PKTS + 1` calls
are made. -/
theorem C1_receive_attempts_bounded (cfg : Config) (env : Nat → IterEnv) (g : GlobalData) :
    recvAttempts (CI_LAB_ReadUpLink cfg env g).2 ≤ cfg.MAX_INGEST_PKTS + 1 ∧
    ((∀ i, i ≤ cfg.MAX_INGEST_PKTS →
        (env i).getInputBuffer ≠ none ∧ 0 < (env i).recvFrom ∧ ¬ mirrorAbort (env i)) →
      recvAttempts (CI_LAB_ReadUpLink cfg env g).2 = cfg.MAX_INGEST_PKTS + 1) := by
  constructor
  · have := recvAttempts_loopFrom_le cfg env (cfg.MAX_INGEST_PKTS + 1) 0 (g, [])
    simpa [CI_LAB_ReadUpLink, recvAttempts] using this
  · intro h
    have := recvAttempts_loopFrom_full cfg env (cfg.MAX_INGEST_PKTS + 1) 0 (g, [])
      (fun k hk => by simpa using h k (Nat.lt_succ_iff.mp hk))
    simpa [CI_LAB_ReadUpLink, recvAttempts] using this

/-- With `CI_LAB_MAX_INGEST_PKTS = 2` and three datagrams that all go through,
three receive attempts are made. -/
theorem C1_receive_attempts_bounded_witness :
    recvAttempts (CI_LAB_ReadUpLink smallCfg (fun _ => goodIter) initGlobal).2 = 3 :=
  (C1_receive_attempts_bounded smallCfg (fun _ => goodIter) initGlobal).2
    (fun _ _ => by decide)

/-- C9: when the slot is empty at the start of the pass and the first request
to the buffer provider yields no buffer, the only external call of the pass is
that request: no receive attempt, no decoder call, no call on the mirror
socket, no publish and no error report are made, and the global data (the four
counters and the slot) is what it was. -/
theorem C9_pool_exhausted (cfg : Config) (env : Nat → IterEnv) (g : GlobalData)
    (hslot : g.NetBufPtr = none) (hnone : (env 0).getInputBuffer = none) :
    CI_LAB_ReadUpLink cfg env g = (g, [Event.GetInputBuffer none]) ∧
    recvAttempts (CI_LAB_ReadUpLink cfg env g).2 = 0 ∧
    decoderCalls (CI_LAB_ReadUpLink cfg env g).2 = 0 ∧
    mirrorCalls (CI_LAB_ReadUpLink cfg env g).2 = 0 ∧
    mirrorBytes (CI_LAB_ReadUpLink cfg env g).2 = [] ∧
    publisherCalls (CI_LAB_ReadUpLink cfg env g).2 = 0 ∧
    errorReports (CI_LAB_ReadUpLink cfg env g).2 = 0 ∧
    (CI_LAB_ReadUpLink cfg env g).1.Payload = g.Payload ∧
    (CI_LAB_ReadUpLink cfg env g).1.NetBufPtr = g.NetBufPtr ∧
    (CI_LAB_ReadUpLink cfg env g).1.NetBufSize = g.NetBufSize := by
  have h : CI_LAB_ReadUpLink cfg env g = (g, [Event.GetInputBuffer none]) := by
    simp [CI_LAB_ReadUpLink, loopFrom, loopBody_none cfg (env 0) g hslot hnone]
  rw [h]
  simp [recvAttempts, decoderCalls, mirrorCalls, mirrorBytes, publisherCalls, errorReports]

/-- An exhausted pool on the first request of a pass that starts after
initialisation. -/
theorem C9_pool_exhausted_witness :
    CI_LAB_ReadUpLink smallCfg (fun _ => { goodIter with getInputBuffer := none }) initGlobal
      = (initGlobal, [Event.GetInputBuffer none]) :=
  (C9_pool_exhausted smallCfg (fun _ => { goodIter with getInputBuffer := none }) initGlobal
    rfl rfl).1

theorem acquire_events (e : IterEnv) (g : GlobalData) :
    (acquire e g).2 = [] ∨ (acquire e g).2 = [Event.GetInputBuffer e.getInputBuffer] := by
  unfold acquire
  split_ifs <;> simp

theorem mirrorBytes_acquire (e : IterEnv) (g : GlobalData) :
    mirrorBytes (acquire e g).2 = [] := by
  rcases acquire_events e g with h | h <;> simp [h, mirrorBytes]

theorem mirrorBytes_loopBody_decoded (cfg : Config) (e : IterEnv) (g : GlobalData)
    (hb : bufferReady e g) (hr : 0 < e.recvFrom) (hd : e.decodeStatus = CFE_SUCCESS)
    (hm : e.mallocOk = true) :
    mirrorBytes (loopBody cfg e g).events = mirrorBytes (mirrorForward e e.decodeMsg).1 := by
  obtain ⟨p, -, hbody⟩ := loopBody_ready cfg e g hb
  rw [hbody, fromRecv_decoded cfg e _ p _ hr hd]
  by_cases ha : connected e ∧ msgSendFails e
  · rw [onDecoded_abort cfg e _ _ hm ha.1 ha.2]
    simp [allocated, mirrorBytes_append, mirrorBytes, mirrorBytes_acquire]
  · by_cases ht : e.transmit = CFE_SUCCESS
    · rw [onDecoded_published cfg e _ _ hm ha ht]
      simp [allocated, mirrorBytes_append, mirrorBytes, mirrorBytes_acquire]
    · rw [onDecoded_publishFail cfg e _ _ hm ha ht]
      simp [allocated, mirrorBytes_append, mirrorBytes, mirrorBytes_acquire]

theorem htonl_eq_be32 (n : Nat) (h : n < 2 ^ 32) : htonl n = be32 n := by
  simp only [htonl, be32, Nat.mod_eq_of_lt h]

theorem mirrorBytes_mirrorForward_full (e : IterEnv) (m : Msg) (hc : connected e)
    (h1 : e.sendMarkerLen = 4) (h2 : e.sendMarker = 4) (h3 : e.sendMsgSize = 4)
    (h4 : e.sendMsg = m.bytes.length) :
    mirrorBytes (mirrorForward e m).1 =
      htonl 4 ++ message ++ htonl (CFE_MSG_GetSize m) ++ m.bytes := by
  obtain ⟨c1, c2, c3⟩ := hc
  have n1 : ¬ e.socket < 0 := by omega
  have n2 : ¬ e.inet_pton ≤ 0 := by omega
  have n3 : ¬ e.connect < 0 := by omega
  have n4 : ¬ ((m.bytes.length : Int) < 0) := by omega
  simp [mirrorForward, sendMarkerFrame, n1, n2, n3, n4, h1, h2, h3, h4, mirrorBytes,
    mirrorBytes_append, sentBytes, htonl, message]

theorem readField_be32 (n : Nat) (h : n < 2 ^ 32) (f rest : List Byte) (hf : f.length = n) :
    readField (be32 n ++ f ++ rest) = some (f, rest) := by
  have hn : n / 2 ^ 24 % 256 * 2 ^ 24 + n / 2 ^ 16 % 256 * 2 ^ 16 + n / 2 ^ 8 % 256 * 2 ^ 8
      + n % 256 = n := by omega
  simp only [be32, List.cons_append, List.nil_append, readField, hn]
  simp [← hf]

/-- C2: mirror frame round trip.  In an iteration whose datagram decodes to a
message with octets `M` of logical size `L < 2^32`, with the hex-dump buffer
allocated, the mirror connection established and each of the four sends
complete (4, 4, 4 and `L` octets), the octet stream written to the mirror
connection is exactly `be32(4) ++ [0xAA,0xAA,0xAA,0xAA] ++ be32(L) ++ M`, where
`be32(4) = [0,0,0,4]`; it has `12 + L` octets, and a reader of two consecutive
length-prefixed fields gets the marker, then `M`, with nothing left over. -/
theorem C2_mirror_frame (cfg : Config) (e : IterEnv) (g : GlobalData)
    (hb : bufferReady e g) (hr : 0 < e.recvFrom) (hd : e.decodeStatus = CFE_SUCCESS)
    (hm : e.mallocOk = true) (hc : connected e)
    (h1 : e.sendMarkerLen = 4) (h2 : e.sendMarker = 4) (h3 : e.sendMsgSize = 4)
    (h4 : e.sendMsg = CFE_MSG_GetSize e.decodeMsg)
    (hL : CFE_MSG_GetSize e.decodeMsg < 2 ^ 32) :
    mirrorBytes (loopBody cfg e g).events =
        be32 4 ++ [0xAA, 0xAA, 0xAA, 0xAA] ++ be32 (CFE_MSG_GetSize e.decodeMsg)
          ++ e.decodeMsg.bytes ∧
    be32 4 = [0, 0, 0, 4] ∧
    (mirrorBytes (loopBody cfg e g).events).length = 12 + CFE_MSG_GetSize e.decodeMsg ∧
    readFrame (mirrorBytes (loopBody cfg e g).events) =
      some ([0xAA, 0xAA, 0xAA, 0xAA], e.decodeMsg.bytes, []) := by
  have hbytes : mirrorBytes (loopBody cfg e g).events =
      be32 4 ++ [0xAA, 0xAA, 0xAA, 0xAA] ++ be32 (CFE_MSG_GetSize e.decodeMsg)
        ++ e.decodeMsg.bytes := by
    rw [mirrorBytes_loopBody_decoded cfg e g hb hr hd hm,
      mirrorBytes_mirrorForward_full e e.decodeMsg hc h1 h2 h3 h4,
      htonl_eq_be32 4 (by decide), htonl_eq_be32 _ hL]
    rfl
  refine ⟨hbytes, by decide, ?_, ?_⟩
  · rw [hbytes]; simp [be32, CFE_MSG_GetSize]; omega
  · rw [hbytes]
    have r1 := readField_be32 4 (by decide) [0xAA, 0xAA, 0xAA, 0xAA]
      (be32 (CFE_MSG_GetSize e.decodeMsg) ++ e.decodeMsg.bytes) rfl
    have r2 := readField_be32 (CFE_MSG_GetSize e.decodeMsg) hL e.decodeMsg.bytes [] rfl
    simp only [List.append_nil] at r2
    rw [List.append_assoc (be32 4 ++ [0xAA, 0xAA, 0xAA, 0xAA])]
    unfold readFrame
    rw [r1]
    simp only []
    rw [r2]

/-- The frame of a 12-octet message, read back. -/
theorem C2_mirror_frame_witness :
    readFrame (mirrorBytes (loopBody smallCfg goodIter initGlobal).events) =
      some ([0xAA, 0xAA, 0xAA, 0xAA], sampleMsg.bytes, []) :=
  (C2_mirror_frame smallCfg goodIter initGlobal (by decide) (by decide) rfl rfl (by decide)
    rfl rfl rfl rfl (by decide)).2.2.2

theorem loopFrom_succ_next (cfg : Config) (env : Nat → IterEnv) (i n : Nat)
    (s : GlobalData × List Event) (h : (loopBody cfg (env i) s.1).flow = Flow.next) :
    loopFrom cfg env i (n + 1) s =
      loopFrom cfg env (i + 1) n
        ((loopBody cfg (env i) s.1).g, s.2 ++ (loopBody cfg (env i) s.1).events) := by
  simp [loopFrom, h]

theorem loopFrom_succ_stop (cfg : Config) (env : Nat → IterEnv) (i n : Nat)
    (s : GlobalData × List Event) (h : (loopBody cfg (env i) s.1).flow ≠ Flow.next) :
    loopFrom cfg env i (n + 1) s =
      ((loopBody cfg (env i) s.1).g, s.2 ++ (loopBody cfg (env i) s.1).events) := by
  unfold loopFrom
  cases hf : (loopBody cfg (env i) s.1).flow <;> simp_all

theorem publisherCalls_acquire (e : IterEnv) (g : GlobalData) :
    publisherCalls (acquire e g).2 = 0 := by
  rcases acquire_events e g with h | h <;> simp [h, publisherCalls]

theorem loopBody_good (cfg : Config) (e : IterEnv) (g : GlobalData)
    (hb : bufferReady e g) (hg : goodAttempt e) :
    (loopBody cfg e g).flow = Flow.next ∧
    (loopBody cfg e g).g.NetBufPtr = none ∧
    (loopBody cfg e g).g.NetBufSize = 0 ∧
    (loopBody cfg e g).g.Payload =
      { g.Payload with IngestPackets := incr cfg.counterBits g.Payload.IngestPackets } ∧
    publisherCalls (loopBody cfg e g).events = 1 := by
  obtain ⟨hr, hd, hm, ha, ht⟩ := hg
  obtain ⟨p, -, hbody⟩ := loopBody_ready cfg e g hb
  rw [hbody, fromRecv_decoded cfg e _ p _ hr hd, onDecoded_published cfg e _ _ hm ha ht]
  simp [counted, acquire_payload, allocated, publisherCalls_append, publisherCalls,
    publisherCalls_acquire, publisherCalls_mirrorForward]

theorem loopFrom_good (cfg : Config) (env : Nat → IterEnv) (N : Nat) :
    ∀ (i : Nat) (s : GlobalData × List Event),
      (∀ k, k < N → goodAttempt (env (i + k))) →
      (∀ k, k < N → (k = 0 ∧ s.1.NetBufPtr ≠ none) ∨ (env (i + k)).getInputBuffer ≠ none) →
      (∀ n, loopFrom cfg env i (N + n) s =
        loopFrom cfg env (i + N) n (loopFrom cfg env i N s)) ∧
      (loopFrom cfg env i N s).1.Payload.IngestPackets % 2 ^ cfg.counterBits =
        (s.1.Payload.IngestPackets + N) % 2 ^ cfg.counterBits ∧
      (0 < N → (loopFrom cfg env i N s).1.Payload.IngestPackets < 2 ^ cfg.counterBits) ∧
      (loopFrom cfg env i N s).1.Payload.IngestErrors = s.1.Payload.IngestErrors ∧
      (loopFrom cfg env i N s).1.Payload.CommandCounter = s.1.Payload.CommandCounter ∧
      (loopFrom cfg env i N s).1.Payload.CommandErrorCounter =
        s.1.Payload.CommandErrorCounter ∧
      (0 < N → (loopFrom cfg env i N s).1.NetBufPtr = none ∧
        (loopFrom cfg env i N s).1.NetBufSize = 0) ∧
      recvAttempts (loopFrom cfg env i N s).2 = recvAttempts s.2 + N ∧
      publisherCalls (loopFrom cfg env i N s).2 = publisherCalls s.2 + N := by
  induction N with
  | zero => intro i s _ _; simp [loopFrom]
  | succ N ih =>
    intro i s hgood hbuf
    have hg0 : goodAttempt (env i) := by simpa using hgood 0 (Nat.succ_pos N)
    have hb0 : bufferReady (env i) s.1 := by
      rcases hbuf 0 (Nat.succ_pos N) with h | h
      · exact Or.inl h.2
      · exact Or.inr (by simpa using h)
    obtain ⟨hflow, hptr, hsize, hpay, hpub⟩ := loopBody_good cfg (env i) s.1 hb0 hg0
    have hrecv := recvAttempts_loopBody_ready cfg (env i) s.1 hb0
    have hstep : ∀ n, loopFrom cfg env i (n + 1) s = loopFrom cfg env (i + 1) n
        ((loopBody cfg (env i) s.1).g, s.2 ++ (loopBody cfg (env i) s.1).events) :=
      fun n => loopFrom_succ_next cfg env i n s hflow
    obtain ⟨h1, h2, h3, h4, h5, h6, h7, h8, h9⟩ :=
      ih (i + 1) ((loopBody cfg (env i) s.1).g, s.2 ++ (loopBody cfg (env i) s.1).events)
        (fun k hk => by
          have := hgood (k + 1) (Nat.succ_lt_succ hk)
          rwa [show i + (k + 1) = i + 1 + k by omega] at this)
        (fun k hk => by
          rcases hbuf (k + 1) (Nat.succ_lt_succ hk) with h | h
          · exact absurd h.1 (Nat.succ_ne_zero k)
          · right; rwa [show i + (k + 1) = i + 1 + k by omega] at h)
    have hpos : 0 < 2 ^ cfg.counterBits := Nat.pos_of_ne_zero (by positivity)
    rw [hstep N]
    simp only [hpay, recvAttempts_append, publisherCalls_append, hrecv, hpub] at h2 h4 h5 h6 h8 h9
    refine ⟨?_, ?_, ?_, h4, h5, h6, ?_, by omega, by omega⟩
    · intro n
      rw [show N + 1 + n = (N + n) + 1 by omega, hstep (N + n), h1 n,
        show i + 1 + N = i + (N + 1) by omega]
    · rw [h2]
      unfold incr
      rw [Nat.mod_add_mod]
      congr 1
      omega
    · intro _
      rcases Nat.eq_zero_or_pos N with hN | hN
      · subst hN
        simp only [loopFrom, hpay, incr]
        exact Nat.mod_lt _ hpos
      · exact h3 hN
    · intro _
      rcases Nat.eq_zero_or_pos N with hN | hN
      · subst hN
        simp only [loopFrom]
        exact ⟨hptr, hsize⟩
      · exact h7 hN

/-- C3: let the first `N` receive attempts of a pass (`N <= CI_LAB_MAX_INGEST_PKTS + 1`)
each return a datagram that decodes, is mirrored without a send failure and is
published successfully.  Then the pass goes through the state reached by
exactly these `N` iterations (and continues from loop index `N`); in that state
`N` receive attempts and `N` publishes have been made, `IngestPackets` has grown
by `N` modulo the counter width (by exactly `N` when that does not wrap),
`IngestErrors` and the two command counters are unchanged, and, for `N >= 1`,
the slot is empty: `NetBufPtr = NULL`, `NetBufSize = 0`. -/
theorem C3_successes_counted (cfg : Config) (env : Nat → IterEnv) (g : GlobalData) (N : Nat)
    (hN : N ≤ cfg.MAX_INGEST_PKTS + 1)
    (hgood : ∀ i, i < N → goodAttempt (env i))
    (hbuf : ∀ i, i < N → (i = 0 ∧ g.NetBufPtr ≠ none) ∨ (env i).getInputBuffer ≠ none) :
    CI_LAB_ReadUpLink cfg env g =
      loopFrom cfg env N (cfg.MAX_INGEST_PKTS + 1 - N) (loopFrom cfg env 0 N (g, [])) ∧
    recvAttempts (loopFrom cfg env 0 N (g, [])).2 = N ∧
    publisherCalls (loopFrom cfg env 0 N (g, [])).2 = N ∧
    (loopFrom cfg env 0 N (g, [])).1.Payload.IngestPackets % 2 ^ cfg.counterBits =
      (g.Payload.IngestPackets + N) % 2 ^ cfg.counterBits ∧
    (g.Payload.IngestPackets + N < 2 ^ cfg.counterBits →
      (loopFrom cfg env 0 N (g, [])).1.Payload.IngestPackets = g.Payload.IngestPackets + N) ∧
    (loopFrom cfg env 0 N (g, [])).1.Payload.IngestErrors = g.Payload.IngestErrors ∧
    (loopFrom cfg env 0 N (g, [])).1.Payload.CommandCounter = g.Payload.CommandCounter ∧
    (loopFrom cfg env 0 N (g, [])).1.Payload.CommandErrorCounter =
      g.Payload.CommandErrorCounter ∧
    (0 < N → (loopFrom cfg env 0 N (g, [])).1.NetBufPtr = none ∧
      (loopFrom cfg env 0 N (g, [])).1.NetBufSize = 0) := by
  obtain ⟨h1, h2, h3, h4, h5, h6, h7, h8, h9⟩ := loopFrom_good cfg env N 0 (g, [])
    (fun k hk => by simpa using hgood k hk)
    (fun k hk => by simpa using hbuf k hk)
  refine ⟨?_, by simpa [recvAttempts] using h8, by simpa [publisherCalls] using h9, h2, ?_,
    h4, h5, h6, h7⟩
  · have := h1 (cfg.MAX_INGEST_PKTS + 1 - N)
    rw [show N + (cfg.MAX_INGEST_PKTS + 1 - N) = cfg.MAX_INGEST_PKTS + 1 by omega,
      Nat.zero_add] at this
    exact this
  · intro hlt
    rcases Nat.eq_zero_or_pos N with hz | hp
    · subst hz; simp [loopFrom]
    · have := h3 hp
      rw [← Nat.mod_eq_of_lt this, h2]
      exact Nat.mod_eq_of_lt hlt

/-- Three datagrams in a pass with `CI_LAB_MAX_INGEST_PKTS = 2`: three packets
counted, slot empty. -/
theorem C3_successes_counted_witness :
    (loopFrom smallCfg (fun _ => goodIter) 0 3 (initGlobal, [])).1.Payload.IngestPackets
        = 0 + 3 ∧
    (loopFrom smallCfg (fun _ => goodIter) 0 3 (initGlobal, [])).1.NetBufPtr = none ∧
    (loopFrom smallCfg (fun _ => goodIter) 0 3 (initGlobal, [])).1.NetBufSize = 0 :=
  ⟨(C3_successes_counted smallCfg (fun _ => goodIter) initGlobal 3 (by decide)
      (fun _ _ => (by decide : goodAttempt goodIter))
      (fun _ _ => Or.inr (by decide : goodIter.getInputBuffer ≠ none))).2.2.2.2.1 (by decide),
   (C3_successes_counted smallCfg (fun _ => goodIter) initGlobal 3 (by decide)
      (fun _ _ => (by decide : goodAttempt goodIter))
      (fun _ _ => Or.inr (by decide : goodIter.getInputBuffer ≠ none))).2.2.2.2.2.2.2.2 (by decide)⟩

/-! ## One iteration with a decode failure -/

theorem mirrorCalls_acquire (e : IterEnv) (g : GlobalData) :
    mirrorCalls (acquire e g).2 = 0 := by
  rcases acquire_events e g with h | h <;> simp [h, mirrorCalls]

theorem recvBuffers_acquire (e : IterEnv) (g : GlobalData) :
    recvBuffers (acquire e g).2 = [] := by
  rcases acquire_events e g with h | h <;> simp [h, recvBuffers]

theorem onDecoded_events (cfg : Config) (e : IterEnv) (g : GlobalData) (pre : List Event) :
    ∃ tail, (onDecoded cfg e g pre).events = pre ++ tail ∧ providerCalls tail = 0 ∧
      recvBuffers tail = [] := by
  cases hm : e.mallocOk with
  | false =>
    rw [onDecoded_mallocFail cfg e g pre hm]
    exact ⟨_, by simp only [allocated, List.append_assoc]; rfl,
      by simp [providerCalls], by simp [recvBuffers]⟩
  | true =>
    by_cases ha : connected e ∧ msgSendFails e
    · rw [onDecoded_abort cfg e g pre hm ha.1 ha.2]
      exact ⟨_, by simp only [allocated, List.append_assoc]; rfl,
        by simp [providerCalls, providerCalls_append, providerCalls_mirrorForward],
        by simp [recvBuffers, recvBuffers_append, recvBuffers_mirrorForward]⟩
    · by_cases ht : e.transmit = CFE_SUCCESS
      · rw [onDecoded_published cfg e g pre hm ha ht]
        exact ⟨_, by simp only [allocated, List.append_assoc]; rfl,
          by simp [providerCalls, providerCalls_append, providerCalls_mirrorForward],
          by simp [recvBuffers, recvBuffers_append, recvBuffers_mirrorForward]⟩
      · rw [onDecoded_publishFail cfg e g pre hm ha ht]
        exact ⟨_, by simp only [allocated, List.append_assoc]; rfl,
          by simp [providerCalls, providerCalls_append, providerCalls_mirrorForward],
          by simp [recvBuffers, recvBuffers_append, recvBuffers_mirrorForward]⟩

theorem fromRecv_events (cfg : Config) (e : IterEnv) (g : GlobalData) (p : Nat)
    (pre : List Event) :
    providerCalls (fromRecv cfg e g p pre).events = providerCalls pre ∧
    recvBuffers (fromRecv cfg e g p pre).events = recvBuffers pre ++ [(p, g.NetBufSize)] := by
  by_cases hr : 0 < e.recvFrom
  · by_cases hd : e.decodeStatus = CFE_SUCCESS
    · rw [fromRecv_decoded cfg e g p pre hr hd]
      obtain ⟨tail, ht, h1, h2⟩ := onDecoded_events cfg e g
        (pre ++ [Event.SocketRecvFrom p g.NetBufSize e.recvFrom, Event.PerfLogEntry,
          Event.DecodeInputMessage p e.recvFrom e.decodeStatus])
      rw [ht]
      simp [providerCalls_append, recvBuffers_append, providerCalls, recvBuffers, h1, h2]
    · rw [fromRecv_decodeFail cfg e g p pre hr hd]
      simp [providerCalls_append, recvBuffers_append, providerCalls, recvBuffers]
  · rw [fromRecv_nodata cfg e g p pre (by omega)]
    simp [providerCalls_append, recvBuffers_append, providerCalls, recvBuffers]

/-- With a buffer pending, the next iteration does not call the buffer
provider and gives the pending buffer to its receive. -/
theorem loopBody_reuses (cfg : Config) (e : IterEnv) (g : GlobalData) (p : Nat)
    (hg : g.NetBufPtr = some p) :
    providerCalls (loopBody cfg e g).events = 0 ∧
    recvBuffers (loopBody cfg e g).events = [(p, g.NetBufSize)] := by
  rw [loopBody_pending cfg e g p hg]
  simpa [providerCalls, recvBuffers] using fromRecv_events cfg e g p []

theorem loopBody_decodeFail (cfg : Config) (e : IterEnv) (g : GlobalData)
    (hb : bufferReady e g) (hr : 0 < e.recvFrom) (hd : e.decodeStatus ≠ CFE_SUCCESS) :
    ∃ p, (acquire e g).1.NetBufPtr = some p ∧
      loopBody cfg e g =
        ⟨{ (acquire e g).1 with Payload := { g.Payload with
              IngestErrors := incr cfg.counterBits g.Payload.IngestErrors } },
          (acquire e g).2 ++ [Event.SocketRecvFrom p (acquire e g).1.NetBufSize e.recvFrom,
            Event.PerfLogEntry, Event.DecodeInputMessage p e.recvFrom e.decodeStatus,
            Event.PerfLogExit, Event.SendEvent_INGEST_SEND_ERR e.decodeStatus],
          Flow.next⟩ := by
  obtain ⟨p, hp, hbody⟩ := loopBody_ready cfg e g hb
  refine ⟨p, hp, ?_⟩
  rw [hbody, fromRecv_decodeFail cfg e _ p _ hr hd, acquire_payload]

theorem providerCalls_acquire_le (e : IterEnv) (g : GlobalData) :
    providerCalls (acquire e g).2 ≤ 1 := by
  rcases acquire_events e g with h | h <;> simp [h, providerCalls]

theorem decodeFail_facts (cfg : Config) (e : IterEnv) (g : GlobalData)
    (hb : bufferReady e g) (hr : 0 < e.recvFrom) (hd : e.decodeStatus ≠ CFE_SUCCESS) :
    (loopBody cfg e g).flow = Flow.next ∧
    (loopBody cfg e g).g.Payload =
      { g.Payload with IngestErrors := incr cfg.counterBits g.Payload.IngestErrors } ∧
    mirrorCalls (loopBody cfg e g).events = 0 ∧
    mirrorBytes (loopBody cfg e g).events = [] ∧
    publisherCalls (loopBody cfg e g).events = 0 ∧
    providerCalls (loopBody cfg e g).events ≤ 1 ∧
    ∃ p, slotAtRecv e g = (some p, (loopBody cfg e g).g.NetBufSize) ∧
      (loopBody cfg e g).g.NetBufPtr = some p ∧
      recvBuffers (loopBody cfg e g).events = [(p, (loopBody cfg e g).g.NetBufSize)] := by
  obtain ⟨p, hp, hbody⟩ := loopBody_decodeFail cfg e g hb hr hd
  have hprov := providerCalls_acquire_le e g
  rw [hbody]
  refine ⟨rfl, rfl, ?_, ?_, ?_, ?_, p, ?_, hp, ?_⟩
  · simp [mirrorCalls_append, mirrorCalls, mirrorCalls_acquire]
  · simp [mirrorBytes_append, mirrorBytes, mirrorBytes_acquire]
  · simp [publisherCalls_append, publisherCalls, publisherCalls_acquire]
  · simpa [providerCalls_append, providerCalls] using hprov
  · simp [slotAtRecv, hp]
  · simp [recvBuffers_append, recvBuffers, recvBuffers_acquire]

theorem loopBody_nodata (cfg : Config) (e : IterEnv) (g : GlobalData) (p : Nat)
    (hg : g.NetBufPtr = some p) (hr : e.recvFrom ≤ 0) :
    loopBody cfg e g = ⟨g, [Event.SocketRecvFrom p g.NetBufSize e.recvFrom], Flow.brk⟩ := by
  rw [loopBody_pending cfg e g p hg, fromRecv_nodata cfg e g p [] hr]
  rfl

/-- C4: decode failure.  In an iteration whose datagram is received and fails
to decode, `IngestErrors` becomes `IngestErrors + 1` (modulo the counter
width) and the other three counters are unchanged, no call on the mirror
socket is made and nothing is written to it, the bus publisher is not called,
the slot keeps the buffer that was given to the receive, the loop goes on, and
the next iteration gives that same buffer to its receive without calling the
buffer provider.  In particular a pass that starts with zeroed counters (of a
width that can hold 2) and whose first two datagrams both fail to decode, with
no third datagram, ends with `IngestErrors = 2`, `IngestPackets = 0`, the same
buffer in both receives and no mirror traffic. -/
theorem C4_decode_failure (cfg : Config) :
    (∀ (e : IterEnv) (g : GlobalData), bufferReady e g → 0 < e.recvFrom →
      e.decodeStatus ≠ CFE_SUCCESS →
      (loopBody cfg e g).flow = Flow.next ∧
      (loopBody cfg e g).g.Payload.IngestErrors =
        (g.Payload.IngestErrors + 1) % 2 ^ cfg.counterBits ∧
      (loopBody cfg e g).g.Payload.IngestPackets = g.Payload.IngestPackets ∧
      (loopBody cfg e g).g.Payload.CommandCounter = g.Payload.CommandCounter ∧
      (loopBody cfg e g).g.Payload.CommandErrorCounter = g.Payload.CommandErrorCounter ∧
      mirrorCalls (loopBody cfg e g).events = 0 ∧
      mirrorBytes (loopBody cfg e g).events = [] ∧
      publisherCalls (loopBody cfg e g).events = 0 ∧
      ∃ p, slotAtRecv e g = (some p, (loopBody cfg e g).g.NetBufSize) ∧
        (loopBody cfg e g).g.NetBufPtr = some p ∧
        recvBuffers (loopBody cfg e g).events = [(p, (loopBody cfg e g).g.NetBufSize)] ∧
        ∀ e2 : IterEnv,
          providerCalls (loopBody cfg e2 (loopBody cfg e g).g).events = 0 ∧
          recvBuffers (loopBody cfg e2 (loopBody cfg e g).g).events =
            [(p, (loopBody cfg e g).g.NetBufSize)]) ∧
    (∀ (env : Nat → IterEnv) (g : GlobalData),
      1 ≤ cfg.MAX_INGEST_PKTS → 2 < 2 ^ cfg.counterBits →
      g.Payload = ⟨0, 0, 0, 0⟩ → bufferReady (env 0) g →
      (∀ i, i < 2 → 0 < (env i).recvFrom ∧ (env i).decodeStatus ≠ CFE_SUCCESS) →
      (cfg.MAX_INGEST_PKTS = 1 ∨ (env 2).recvFrom ≤ 0) →
      (CI_LAB_ReadUpLink cfg env g).1.Payload.IngestErrors = 2 ∧
      (CI_LAB_ReadUpLink cfg env g).1.Payload.IngestPackets = 0 ∧
      (∃ b, (recvBuffers (CI_LAB_ReadUpLink cfg env g).2).take 2 = [b, b]) ∧
      mirrorBytes (CI_LAB_ReadUpLink cfg env g).2 = [] ∧
      mirrorCalls (CI_LAB_ReadUpLink cfg env g).2 = 0 ∧
      publisherCalls (CI_LAB_ReadUpLink cfg env g).2 = 0 ∧
      providerCalls (CI_LAB_ReadUpLink cfg env g).2 ≤ 1) := by
  constructor
  · intro e g hb hr hd
    obtain ⟨h1, h2, h3, h4, h5, -, p, h6, h7, h8⟩ := decodeFail_facts cfg e g hb hr hd
    refine ⟨h1, by rw [h2]; rfl, by rw [h2], by rw [h2], by rw [h2], h3, h4, h5,
      p, h6, h7, h8, fun e2 => loopBody_reuses cfg e2 _ p h7⟩
  · intro env g hmax hw hzero hb hfail hend
    obtain ⟨a1, a2, a3, a4, a5, a6, p, -, a7, a8⟩ :=
      decodeFail_facts cfg (env 0) g hb (hfail 0 (by decide)).1 (hfail 0 (by decide)).2
    obtain ⟨b1, b2, b3, b4, b5, -, q, -, b7, b8⟩ :=
      decodeFail_facts cfg (env 1) (loopBody cfg (env 0) g).g (Or.inl (by simp [a7]))
        (hfail 1 (by decide)).1 (hfail 1 (by decide)).2
    have hreuse := loopBody_reuses cfg (env 1) _ p a7
    have hsize : (loopBody cfg (env 1) (loopBody cfg (env 0) g).g).g.NetBufSize =
        (loopBody cfg (env 0) g).g.NetBufSize := by
      have := hreuse.2
      rw [b8] at this
      simpa using (List.cons.inj this).1 |> congrArg Prod.snd
    have hq : p = q := by
      have := hreuse.2
      rw [b8] at this
      exact (congrArg Prod.fst (List.cons.inj this).1).symm
    subst hq
    have hIE : (loopBody cfg (env 1) (loopBody cfg (env 0) g).g).g.Payload.IngestErrors = 2 := by
      rw [b2, a2, hzero]
      simp only [incr]
      rw [Nat.mod_add_mod]
      exact Nat.mod_eq_of_lt hw
    have hIP : (loopBody cfg (env 1) (loopBody cfg (env 0) g).g).g.Payload.IngestPackets = 0 := by
      rw [b2, a2, hzero]
    obtain ⟨m, hm⟩ : ∃ m, cfg.MAX_INGEST_PKTS = m + 1 := ⟨cfg.MAX_INGEST_PKTS - 1, by omega⟩
    have hrun : CI_LAB_ReadUpLink cfg env g =
        loopFrom cfg env 2 m ((loopBody cfg (env 1) (loopBody cfg (env 0) g).g).g,
          ([] ++ (loopBody cfg (env 0) g).events) ++
            (loopBody cfg (env 1) (loopBody cfg (env 0) g).g).events) := by
      unfold CI_LAB_ReadUpLink
      rw [hm, loopFrom_succ_next cfg env 0 (m + 1) (g, []) a1,
        loopFrom_succ_next cfg env 1 m _ b1]
    rw [hrun]
    cases m with
    | zero =>
      simp only [loopFrom, List.nil_append]
      refine ⟨hIE, hIP, ⟨(p, (loopBody cfg (env 0) g).g.NetBufSize), ?_⟩, ?_, ?_, ?_, ?_⟩
      · simp [recvBuffers_append, a8, b8, hsize]
      · simp [mirrorBytes_append, a4, b4]
      · simp [mirrorCalls_append, a3, b3]
      · simp [publisherCalls_append, a5, b5]
      · simp [providerCalls_append, hreuse.1]; exact a6
    | succ m =>
      have hr2 : (env 2).recvFrom ≤ 0 := by
        rcases hend with h | h
        · omega
        · exact h
      have hnd := loopBody_nodata cfg (env 2) _ p b7 hr2
      rw [loopFrom_succ_stop cfg env 2 m _ (by rw [hnd]; simp)]
      simp only [hnd, List.nil_append]
      refine ⟨hIE, hIP, ⟨(p, (loopBody cfg (env 0) g).g.NetBufSize), ?_⟩, ?_, ?_, ?_, ?_⟩
      · simp [recvBuffers_append, a8, b8, hsize, recvBuffers]
      · simp [mirrorBytes_append, a4, b4, mirrorBytes]
      · simp [mirrorCalls_append, a3, b3, mirrorCalls]
      · simp [publisherCalls_append, a5, b5, publisherCalls]
      · simp [providerCalls_append, hreuse.1, providerCalls]; exact a6

/-- Two rejected datagrams after initialisation, with
`CI_LAB_MAX_INGEST_PKTS = 2`: two ingest errors, no packet counted, the buffer
at address 4096 in every receive. -/
theorem C4_decode_failure_witness :
    (loopBody smallCfg badIter initGlobal).g.Payload.IngestErrors = (0 + 1) % 2 ^ 32 ∧
    (CI_LAB_ReadUpLink smallCfg twoBad initGlobal).1.Payload.IngestErrors = 2 ∧
    (CI_LAB_ReadUpLink smallCfg twoBad initGlobal).1.Payload.IngestPackets = 0 ∧
    mirrorBytes (CI_LAB_ReadUpLink smallCfg twoBad initGlobal).2 = [] :=
  ⟨((C4_decode_failure smallCfg).1 badIter initGlobal (by decide) (by decide) (by decide)).2.1,
   ((C4_decode_failure smallCfg).2 twoBad initGlobal (by decide) (by decide) rfl (by decide)
      (by decide) (Or.inr (by decide))).1,
   ((C4_decode_failure smallCfg).2 twoBad initGlobal (by decide) (by decide) rfl (by decide)
      (by decide) (Or.inr (by decide))).2.1,
   ((C4_decode_failure smallCfg).2 twoBad initGlobal (by decide) (by decide) rfl (by decide)
      (by decide) (Or.inr (by decide))).2.2.2.1⟩

/-! ## One iteration with a decoded datagram -/

theorem decodedEvents_counts (e : IterEnv) (g : GlobalData) (p : Nat) :
    recvAttempts (decodedEvents e g p) = 1 ∧
    publisherCalls (decodedEvents e g p) = 0 ∧
    mirrorBytes (decodedEvents e g p) = [] ∧
    sendCalls (decodedEvents e g p) = 0 ∧
    errorReports (decodedEvents e g p) = 0 ∧
    recvBuffers (decodedEvents e g p) = [(p, (acquire e g).1.NetBufSize)] := by
  unfold decodedEvents allocated
  rcases acquire_events e g with h | h <;>
    simp [h, recvAttempts, publisherCalls, mirrorBytes, sendCalls, errorReports, recvBuffers]

theorem loopBody_abort (cfg : Config) (e : IterEnv) (g : GlobalData)
    (hb : bufferReady e g) (hr : 0 < e.recvFrom) (hd : e.decodeStatus = CFE_SUCCESS)
    (hm : e.mallocOk = true) (hc : connected e) (hs : msgSendFails e) :
    ∃ p, (acquire e g).1.NetBufPtr = some p ∧
      loopBody cfg e g = ⟨counted cfg (acquire e g).1,
        decodedEvents e g p ++ (mirrorForward e e.decodeMsg).1, Flow.ret⟩ := by
  obtain ⟨p, hp, hbody⟩ := loopBody_ready cfg e g hb
  exact ⟨p, hp, by
    rw [hbody, fromRecv_decoded cfg e _ p _ hr hd, onDecoded_abort cfg e _ _ hm hc hs]; rfl⟩

theorem loopBody_published (cfg : Config) (e : IterEnv) (g : GlobalData)
    (hb : bufferReady e g) (hr : 0 < e.recvFrom) (hd : e.decodeStatus = CFE_SUCCESS)
    (hm : e.mallocOk = true) (ha : ¬ (connected e ∧ msgSendFails e))
    (ht : e.transmit = CFE_SUCCESS) :
    ∃ p, (acquire e g).1.NetBufPtr = some p ∧
      loopBody cfg e g = ⟨{ counted cfg (acquire e g).1 with NetBufPtr := none, NetBufSize := 0 },
        decodedEvents e g p ++ (mirrorForward e e.decodeMsg).1 ++
          [Event.TransmitBuffer e.decodeMsg e.transmit, Event.PerfLogExit], Flow.next⟩ := by
  obtain ⟨p, hp, hbody⟩ := loopBody_ready cfg e g hb
  exact ⟨p, hp, by
    rw [hbody, fromRecv_decoded cfg e _ p _ hr hd, onDecoded_published cfg e _ _ hm ha ht]; rfl⟩

theorem loopBody_publishFail (cfg : Config) (e : IterEnv) (g : GlobalData)
    (hb : bufferReady e g) (hr : 0 < e.recvFrom) (hd : e.decodeStatus = CFE_SUCCESS)
    (hm : e.mallocOk = true) (ha : ¬ (connected e ∧ msgSendFails e))
    (ht : e.transmit ≠ CFE_SUCCESS) :
    ∃ p, (acquire e g).1.NetBufPtr = some p ∧
      loopBody cfg e g = ⟨counted cfg (acquire e g).1,
        decodedEvents e g p ++ (mirrorForward e e.decodeMsg).1 ++
          [Event.TransmitBuffer e.decodeMsg e.transmit, Event.PerfLogExit,
           Event.SendEvent_INGEST_SEND_ERR e.transmit], Flow.next⟩ := by
  obtain ⟨p, hp, hbody⟩ := loopBody_ready cfg e g hb
  exact ⟨p, hp, by
    rw [hbody, fromRecv_decoded cfg e _ p _ hr hd, onDecoded_publishFail cfg e _ _ hm ha ht]; rfl⟩

theorem counted_payload (cfg : Config) (e : IterEnv) (g : GlobalData) :
    (counted cfg (acquire e g).1).Payload =
      { g.Payload with IngestPackets := incr cfg.counterBits g.Payload.IngestPackets } := by
  simp [counted, acquire_payload]

/-- C5: in an iteration whose datagram decodes, with the hex-dump buffer
allocated and the mirror connection established, a failure of the send of the
message length or of the send of the message octets makes the function return
at once: from any position of the loop the pass ends with the state and trace
of this iteration, so the receive of this iteration is the last one whatever is
still queued; the bus publisher is not called; the slot still holds the
buffer given to the receive; `IngestPackets` has been incremented (modulo the
counter width) and the other counters are unchanged. -/
theorem C5_message_send_failure (cfg : Config) (env : Nat → IterEnv) (i n : Nat)
    (s : GlobalData × List Event)
    (hb : bufferReady (env i) s.1) (hr : 0 < (env i).recvFrom)
    (hd : (env i).decodeStatus = CFE_SUCCESS) (hm : (env i).mallocOk = true)
    (hc : connected (env i)) (hs : msgSendFails (env i)) :
    (loopBody cfg (env i) s.1).flow = Flow.ret ∧
    loopFrom cfg env i (n + 1) s =
      ((loopBody cfg (env i) s.1).g, s.2 ++ (loopBody cfg (env i) s.1).events) ∧
    recvAttempts (loopFrom cfg env i (n + 1) s).2 = recvAttempts s.2 + 1 ∧
    publisherCalls (loopFrom cfg env i (n + 1) s).2 = publisherCalls s.2 ∧
    (∃ p, slotAtRecv (env i) s.1 = (some p, (loopFrom cfg env i (n + 1) s).1.NetBufSize) ∧
      (loopFrom cfg env i (n + 1) s).1.NetBufPtr = some p ∧
      recvBuffers (loopBody cfg (env i) s.1).events =
        [(p, (loopFrom cfg env i (n + 1) s).1.NetBufSize)]) ∧
    (loopFrom cfg env i (n + 1) s).1.Payload.IngestPackets =
      (s.1.Payload.IngestPackets + 1) % 2 ^ cfg.counterBits ∧
    (loopFrom cfg env i (n + 1) s).1.Payload.IngestErrors = s.1.Payload.IngestErrors ∧
    (loopFrom cfg env i (n + 1) s).1.Payload.CommandCounter = s.1.Payload.CommandCounter ∧
    (loopFrom cfg env i (n + 1) s).1.Payload.CommandErrorCounter =
      s.1.Payload.CommandErrorCounter := by
  obtain ⟨p, hp, hbody⟩ := loopBody_abort cfg (env i) s.1 hb hr hd hm hc hs
  obtain ⟨c1, c2, -, -, -, c6⟩ := decodedEvents_counts (env i) s.1 p
  have hflow : (loopBody cfg (env i) s.1).flow = Flow.ret := by rw [hbody]
  have hstop := loopFrom_succ_stop cfg env i n s (by rw [hflow]; decide)
  have hpay := counted_payload cfg (env i) s.1
  refine ⟨hflow, hstop, ?_, ?_, ⟨p, ?_, ?_, ?_⟩, ?_, ?_, ?_, ?_⟩
  · rw [hstop, hbody]; simp [recvAttempts_append, c1, recvAttempts_mirrorForward]
  · rw [hstop, hbody]; simp [publisherCalls_append, c2, publisherCalls_mirrorForward]
  · rw [hstop, hbody]; simp [slotAtRecv, hp, counted]
  · rw [hstop, hbody]; simpa [counted] using hp
  · rw [hstop, hbody]; simp [recvBuffers_append, c6, recvBuffers_mirrorForward, counted]
  · rw [hstop, hbody]; simp only [hpay]; rfl
  · rw [hstop, hbody]; simp only [hpay]
  · rw [hstop, hbody]; simp only [hpay]
  · rw [hstop, hbody]; simp only [hpay]

/-- Three datagrams queued, the length send of the first one fails: one
receive attempt, no publish, the buffer at address 4096 still pending. -/
theorem C5_message_send_failure_witness :
    recvAttempts (loopFrom smallCfg (fun _ => sizeSendFailIter) 0 (2 + 1) (initGlobal, [])).2
      = recvAttempts [] + 1 ∧
    publisherCalls (loopFrom smallCfg (fun _ => sizeSendFailIter) 0 (2 + 1) (initGlobal, [])).2
      = publisherCalls [] :=
  ⟨(C5_message_send_failure smallCfg (fun _ => sizeSendFailIter) 0 2 (initGlobal, [])
      (by decide) (by decide) rfl rfl (by decide) (by decide)).2.2.1,
   (C5_message_send_failure smallCfg (fun _ => sizeSendFailIter) 0 2 (initGlobal, [])
      (by decide) (by decide) rfl rfl (by decide) (by decide)).2.2.2.1⟩

theorem errorReports_sendMarkerFrame (e : IterEnv) (h : markerSendFails e) :
    errorReports (sendMarkerFrame e) = 1 := by
  unfold markerSendFails at h
  unfold sendMarkerFrame
  split_ifs with h1 h2
  · simp [errorReports]
  · simp [errorReports]
  · omega

theorem mirrorForward_connected (e : IterEnv) (m : Msg) (hc : connected e) :
    ∃ tail, (mirrorForward e m).1 =
      [Event.socket e.socket, Event.inet_pton e.inet_pton, Event.connect e.connect] ++
        sendMarkerFrame e ++ Event.send (htonl (CFE_MSG_GetSize m)) e.sendMsgSize :: tail := by
  obtain ⟨c1, c2, c3⟩ := hc
  have n1 : ¬ e.socket < 0 := by omega
  have n2 : ¬ e.inet_pton ≤ 0 := by omega
  have n3 : ¬ e.connect < 0 := by omega
  unfold mirrorForward
  simp only [n1, n2, n3, if_false]
  split_ifs <;> exact ⟨_, rfl⟩

/-- C6 as stated fails: with `CI_LAB_MAX_INGEST_PKTS = 2` and three queued
datagrams, each decoded with the mirror connection established and the send of
the marker length failing, the first iteration falls through to the next one
and the pass makes all three receive attempts and three publishes. -/
theorem C6_marker_failure_counterexample :
    markerFailIter.decodeStatus = CFE_SUCCESS ∧ connected markerFailIter ∧
    markerSendFails markerFailIter ∧
    (loopBody smallCfg markerFailIter initGlobal).flow = Flow.next ∧
    recvAttempts (CI_LAB_ReadUpLink smallCfg (fun _ => markerFailIter) initGlobal).2 = 3 ∧
    publisherCalls (CI_LAB_ReadUpLink smallCfg (fun _ => markerFailIter) initGlobal).2 = 3 := by
  decide

/-- C6, amended: in an iteration whose datagram decodes, with the hex-dump
buffer allocated and the mirror connection established, a failure of the
marker-frame send step (the send of the marker length, or of the marker
octets) is written to the system log once and does not end the pass by
itself: the send of the message length is still made, and the function
returns early exactly when the send of the message length or of the message
octets fails; otherwise the message is handed to the bus publisher once and the
loop goes on to the next attempt. -/
theorem C6_marker_failure_amended (cfg : Config) (e : IterEnv) (g : GlobalData)
    (hb : bufferReady e g) (hr : 0 < e.recvFrom) (hd : e.decodeStatus = CFE_SUCCESS)
    (hm : e.mallocOk = true) (hc : connected e) (hf : markerSendFails e) :
    errorReports (sendMarkerFrame e) = 1 ∧
    Event.send (htonl (CFE_MSG_GetSize e.decodeMsg)) e.sendMsgSize ∈ (loopBody cfg e g).events ∧
    ((loopBody cfg e g).flow = Flow.ret ↔ msgSendFails e) ∧
    (msgSendFails e → publisherCalls (loopBody cfg e g).events = 0) ∧
    (¬ msgSendFails e → (loopBody cfg e g).flow = Flow.next ∧
      publisherCalls (loopBody cfg e g).events = 1) := by
  obtain ⟨tail, htail⟩ := mirrorForward_connected e e.decodeMsg hc
  by_cases hs : msgSendFails e
  · obtain ⟨p, -, hbody⟩ := loopBody_abort cfg e g hb hr hd hm hc hs
    obtain ⟨-, c2, -⟩ := decodedEvents_counts e g p
    rw [hbody]
    refine ⟨errorReports_sendMarkerFrame e hf, ?_, by simp [hs], ?_, fun h => absurd hs h⟩
    · simp [htail]
    · intro _; simp [publisherCalls_append, c2, publisherCalls_mirrorForward]
  · have ha : ¬ (connected e ∧ msgSendFails e) := fun h => hs h.2
    by_cases ht : e.transmit = CFE_SUCCESS
    · obtain ⟨p, -, hbody⟩ := loopBody_published cfg e g hb hr hd hm ha ht
      obtain ⟨-, c2, -⟩ := decodedEvents_counts e g p
      rw [hbody]
      refine ⟨errorReports_sendMarkerFrame e hf, ?_, by simp [hs], fun h => absurd h hs, ?_⟩
      · simp [htail]
      · intro _
        simp [publisherCalls_append, c2, publisherCalls_mirrorForward, publisherCalls]
    · obtain ⟨p, -, hbody⟩ := loopBody_publishFail cfg e g hb hr hd hm ha ht
      obtain ⟨-, c2, -⟩ := decodedEvents_counts e g p
      rw [hbody]
      refine ⟨errorReports_sendMarkerFrame e hf, ?_, by simp [hs], fun h => absurd h hs, ?_⟩
      · simp [htail]
      · intro _
        simp [publisherCalls_append, c2, publisherCalls_mirrorForward, publisherCalls]

/-- The marker length send fails and the message frame goes out: the loop goes
on and the message is published. -/
theorem C6_marker_failure_amended_witness :
    (loopBody smallCfg markerFailIter initGlobal).flow = Flow.next ∧
    publisherCalls (loopBody smallCfg markerFailIter initGlobal).events = 1 :=
  (C6_marker_failure_amended smallCfg markerFailIter initGlobal (by decide) (by decide) rfl rfl
    (by decide) (by decide)).2.2.2.2 (by decide)

/-- C7: in an iteration whose datagram decodes and is mirrored without a send
failure that ends the pass, a failing `CFE_SB_TransmitBuffer` is followed by
the error event `CI_LAB_INGEST_SEND_ERR_EID` carrying its status, as the last
call of the iteration; `IngestPackets` has been incremented once (modulo the
counter width) and the other three counters are unchanged; the slot still
holds the buffer given to the receive; the loop goes on, and the next
iteration gives that same buffer to its receive without calling the buffer
provider. -/
theorem C7_publish_failure (cfg : Config) (e : IterEnv) (g : GlobalData)
    (hb : bufferReady e g) (hr : 0 < e.recvFrom) (hd : e.decodeStatus = CFE_SUCCESS)
    (hm : e.mallocOk = true) (ha : ¬ (connected e ∧ msgSendFails e))
    (ht : e.transmit ≠ CFE_SUCCESS) :
    (loopBody cfg e g).flow = Flow.next ∧
    (loopBody cfg e g).events.getLast? = some (Event.SendEvent_INGEST_SEND_ERR e.transmit) ∧
    publisherCalls (loopBody cfg e g).events = 1 ∧
    (loopBody cfg e g).g.Payload.IngestPackets =
      (g.Payload.IngestPackets + 1) % 2 ^ cfg.counterBits ∧
    (loopBody cfg e g).g.Payload.IngestErrors = g.Payload.IngestErrors ∧
    (loopBody cfg e g).g.Payload.CommandCounter = g.Payload.CommandCounter ∧
    (loopBody cfg e g).g.Payload.CommandErrorCounter = g.Payload.CommandErrorCounter ∧
    ∃ p, slotAtRecv e g = (some p, (loopBody cfg e g).g.NetBufSize) ∧
      (loopBody cfg e g).g.NetBufPtr = some p ∧
      recvBuffers (loopBody cfg e g).events = [(p, (loopBody cfg e g).g.NetBufSize)] ∧
      ∀ e2 : IterEnv,
        providerCalls (loopBody cfg e2 (loopBody cfg e g).g).events = 0 ∧
        recvBuffers (loopBody cfg e2 (loopBody cfg e g).g).events =
          [(p, (loopBody cfg e g).g.NetBufSize)] := by
  obtain ⟨p, hp, hbody⟩ := loopBody_publishFail cfg e g hb hr hd hm ha ht
  obtain ⟨-, c2, -, -, -, c6⟩ := decodedEvents_counts e g p
  have hpay := counted_payload cfg e g
  have hptr : (loopBody cfg e g).g.NetBufPtr = some p := by
    rw [hbody]; simpa [counted] using hp
  have hsz : (loopBody cfg e g).g.NetBufSize = (acquire e g).1.NetBufSize := by
    rw [hbody]; simp [counted]
  refine ⟨by rw [hbody], ?_, ?_, ?_, ?_, ?_, ?_, p, ?_, hptr, ?_, ?_⟩
  · rw [hbody]; simp
  · rw [hbody]
    simp [publisherCalls_append, c2, publisherCalls_mirrorForward, publisherCalls]
  · rw [hbody]; simp only [hpay]; rfl
  · rw [hbody]; simp only [hpay]
  · rw [hbody]; simp only [hpay]
  · rw [hbody]; simp only [hpay]
  · rw [hsz]; simp [slotAtRecv, hp]
  · rw [hsz, hbody]
    simp [recvBuffers_append, c6, recvBuffers_mirrorForward, recvBuffers]
  · intro e2
    exact loopBody_reuses cfg e2 _ p hptr

/-- A failed publish after initialisation: the error event is the last call,
the packet is counted, the loop goes on. -/
theorem C7_publish_failure_witness :
    (loopBody smallCfg publishFailIter initGlobal).flow = Flow.next ∧
    (loopBody smallCfg publishFailIter initGlobal).events.getLast? =
      some (Event.SendEvent_INGEST_SEND_ERR publishFailIter.transmit) :=
  ⟨(C7_publish_failure smallCfg publishFailIter initGlobal (by decide) (by decide) rfl rfl
      (by decide) (by decide)).1,
   (C7_publish_failure smallCfg publishFailIter initGlobal (by decide) (by decide) rfl rfl
      (by decide) (by decide)).2.1⟩

theorem sendCalls_acquire (e : IterEnv) (g : GlobalData) :
    sendCalls (acquire e g).2 = 0 := by
  rcases acquire_events e g with h | h <;> simp [h, sendCalls]

/-- C10: in an iteration whose datagram decodes and whose hex-dump buffer is
allocated, when the mirror connection cannot be set up (`socket`, `inet_pton`
or `connect` fails) no `send` is made and nothing is written to the mirror
connection, the function does not return early, the decoded message is handed
to the bus publisher once, the slot is emptied when that publish succeeds and
keeps its buffer when it fails, and the loop goes on to the next attempt. -/
theorem C10_mirror_setup_failure (cfg : Config) (e : IterEnv) (g : GlobalData)
    (hb : bufferReady e g) (hr : 0 < e.recvFrom) (hd : e.decodeStatus = CFE_SUCCESS)
    (hm : e.mallocOk = true) (hc : ¬ connected e) :
    sendCalls (loopBody cfg e g).events = 0 ∧
    mirrorBytes (loopBody cfg e g).events = [] ∧
    (loopBody cfg e g).flow = Flow.next ∧
    Event.TransmitBuffer e.decodeMsg e.transmit ∈ (loopBody cfg e g).events ∧
    publisherCalls (loopBody cfg e g).events = 1 ∧
    (e.transmit = CFE_SUCCESS →
      (loopBody cfg e g).g.NetBufPtr = none ∧ (loopBody cfg e g).g.NetBufSize = 0) ∧
    (e.transmit ≠ CFE_SUCCESS →
      ((loopBody cfg e g).g.NetBufPtr, (loopBody cfg e g).g.NetBufSize) = slotAtRecv e g ∧
      (loopBody cfg e g).g.NetBufPtr ≠ none) := by
  have ha : ¬ (connected e ∧ msgSendFails e) := fun h => hc h.1
  obtain ⟨m1, m2⟩ := mirrorForward_not_connected e e.decodeMsg hc
  by_cases ht : e.transmit = CFE_SUCCESS
  · obtain ⟨p, hp, hbody⟩ := loopBody_published cfg e g hb hr hd hm ha ht
    obtain ⟨-, c2, c3, c4, -, -⟩ := decodedEvents_counts e g p
    rw [hbody]
    refine ⟨?_, ?_, rfl, ?_, ?_, fun _ => ⟨rfl, rfl⟩, fun h => absurd ht h⟩
    · simp [sendCalls_append, c4, m1, sendCalls]
    · simp [mirrorBytes_append, c3, m2, mirrorBytes]
    · simp
    · simp [publisherCalls_append, c2, publisherCalls_mirrorForward, publisherCalls]
  · obtain ⟨p, hp, hbody⟩ := loopBody_publishFail cfg e g hb hr hd hm ha ht
    obtain ⟨-, c2, c3, c4, -, -⟩ := decodedEvents_counts e g p
    rw [hbody]
    refine ⟨?_, ?_, rfl, ?_, ?_, fun h => absurd h ht, fun _ => ⟨?_, ?_⟩⟩
    · simp [sendCalls_append, c4, m1, sendCalls]
    · simp [mirrorBytes_append, c3, m2, mirrorBytes]
    · simp
    · simp [publisherCalls_append, c2, publisherCalls_mirrorForward, publisherCalls]
    · simp [slotAtRecv, counted]
    · simp [counted, hp]

/-- A refused mirror connection after initialisation: nothing is written, the
message is published and the slot is emptied. -/
theorem C10_mirror_setup_failure_witness :
    mirrorBytes (loopBody smallCfg connectFailIter initGlobal).events = [] ∧
    publisherCalls (loopBody smallCfg connectFailIter initGlobal).events = 1 ∧
    (loopBody smallCfg connectFailIter initGlobal).g.NetBufPtr = none :=
  ⟨(C10_mirror_setup_failure smallCfg connectFailIter initGlobal (by decide) (by decide) rfl rfl
      (by decide)).2.1,
   (C10_mirror_setup_failure smallCfg connectFailIter initGlobal (by decide) (by decide) rfl rfl
      (by decide)).2.2.2.2.1,
   ((C10_mirror_setup_failure smallCfg connectFailIter initGlobal (by decide) (by decide) rfl rfl
      (by decide)).2.2.2.2.2.1 rfl).1⟩

/-- C8 as stated fails: after initialisation (zeroed counters, empty slot),
with `CI_LAB_MAX_INGEST_PKTS = 2`, one datagram that decodes to a 12-octet
message, is mirrored in full and published successfully, and no data in the
later attempts, the pass ends with `IngestPackets = 1` and `IngestErrors = 0`
but with the slot holding the buffer (address 4096, capacity 2048) acquired for
the second attempt. -/
theorem C8_single_datagram_counterexample :
    initGlobal.NetBufPtr = none ∧ initGlobal.Payload = ⟨0, 0, 0, 0⟩ ∧
    goodAttempt (oneGood 0) ∧ CFE_MSG_GetSize (oneGood 0).decodeMsg = 12 ∧
    (oneGood 1).recvFrom ≤ 0 ∧ (oneGood 2).recvFrom ≤ 0 ∧
    (CI_LAB_ReadUpLink smallCfg oneGood initGlobal).1.Payload.IngestPackets = 1 ∧
    (CI_LAB_ReadUpLink smallCfg oneGood initGlobal).1.Payload.IngestErrors = 0 ∧
    (CI_LAB_ReadUpLink smallCfg oneGood initGlobal).1.NetBufPtr = some 4096 ∧
    (CI_LAB_ReadUpLink smallCfg oneGood initGlobal).1.NetBufSize = 2048 := by
  decide

/-- C8, amended: a pass that starts with zeroed counters (of a width that can
hold 1), whose first attempt has a buffer (with an empty slot: the provider
supplies one) and receives a datagram that decodes (to a message of any size, 12 octets included), is mirrored
without a send failure and is published successfully, and whose later receive
attempts return no data, ends with `IngestPackets = 1`, `IngestErrors = 0` and
the command counters 0 after one publish.  The slot is empty right after the
publish; when the function returns it holds what the buffer provider supplied
for the second attempt, so it is empty exactly when
`CI_LAB_MAX_INGEST_PKTS = 0` or the provider had no buffer then. -/
theorem C8_single_datagram_amended (cfg : Config) (env : Nat → IterEnv) (g : GlobalData)
    (hw : 1 < 2 ^ cfg.counterBits)
    (hzero : g.Payload = ⟨0, 0, 0, 0⟩) (hbuf : bufferReady (env 0) g)
    (hgood : goodAttempt (env 0))
    (hlater : ∀ i, 1 ≤ i → (env i).recvFrom ≤ 0) :
    (CI_LAB_ReadUpLink cfg env g).1.Payload = ⟨0, 0, 1, 0⟩ ∧
    publisherCalls (CI_LAB_ReadUpLink cfg env g).2 = 1 ∧
    ((loopBody cfg (env 0) g).g.NetBufPtr = none ∧ (loopBody cfg (env 0) g).g.NetBufSize = 0) ∧
    (CI_LAB_ReadUpLink cfg env g).1.NetBufPtr =
      (if cfg.MAX_INGEST_PKTS = 0 then none else (env 1).getInputBuffer.map Buf.addr) ∧
    (CI_LAB_ReadUpLink cfg env g).1.NetBufSize =
      (if cfg.MAX_INGEST_PKTS = 0 then 0 else ((env 1).getInputBuffer.map Buf.size).getD 0) ∧
    ((CI_LAB_ReadUpLink cfg env g).1.NetBufPtr = none ↔
      (cfg.MAX_INGEST_PKTS = 0 ∨ (env 1).getInputBuffer = none)) := by
  obtain ⟨hflow, h1, h2, hpay, hpub⟩ := loopBody_good cfg (env 0) g hbuf hgood
  have hpay2 : (loopBody cfg (env 0) g).g.Payload = ⟨0, 0, 1, 0⟩ := by
    rw [hpay, hzero]
    simp only [incr, Nat.zero_add, Nat.mod_eq_of_lt hw]
  have hrun : CI_LAB_ReadUpLink cfg env g =
      loopFrom cfg env 1 cfg.MAX_INGEST_PKTS
        ((loopBody cfg (env 0) g).g, [] ++ (loopBody cfg (env 0) g).events) := by
    unfold CI_LAB_ReadUpLink
    rw [loopFrom_succ_next cfg env 0 _ (g, []) hflow]
  rw [hrun]
  cases hmax : cfg.MAX_INGEST_PKTS with
  | zero =>
    simp only [loopFrom, List.nil_append]
    exact ⟨hpay2, hpub, ⟨h1, h2⟩, by simpa using h1, by simpa using h2, by simp [h1]⟩
  | succ m =>
    have hr1 := hlater 1 (Nat.le_refl 1)
    cases hb1 : (env 1).getInputBuffer with
    | none =>
      have hbody := loopBody_none cfg (env 1) _ h1 hb1
      rw [loopFrom_succ_stop cfg env 1 m _ (by rw [hbody]; simp)]
      simp only [hbody, List.nil_append]
      refine ⟨hpay2, ?_, ⟨h1, h2⟩, by simpa using h1, by simpa using h2, by simp [h1]⟩
      simp [publisherCalls_append, hpub, publisherCalls]
    | some b =>
      have hbody : loopBody cfg (env 1) (loopBody cfg (env 0) g).g =
          ⟨{ (loopBody cfg (env 0) g).g with NetBufPtr := some b.addr, NetBufSize := b.size },
            [Event.GetInputBuffer (some b), Event.SocketRecvFrom b.addr b.size (env 1).recvFrom],
            Flow.brk⟩ := by
        rw [loopBody_acquire cfg (env 1) _ b h1 hb1, fromRecv_nodata cfg (env 1) _ _ _ hr1]
        rfl
      rw [loopFrom_succ_stop cfg env 1 m _ (by rw [hbody]; simp)]
      simp only [hbody, List.nil_append]
      refine ⟨hpay2, ?_, ⟨h1, h2⟩, by simp, by simp, by simp⟩
      simp [publisherCalls_append, hpub, publisherCalls]

/-- One 12-octet datagram after initialisation, with
`CI_LAB_MAX_INGEST_PKTS = 2`: one packet counted and the slot refilled for the
second attempt. -/
theorem C8_single_datagram_amended_witness :
    (CI_LAB_ReadUpLink smallCfg oneGood initGlobal).1.Payload = ⟨0, 0, 1, 0⟩ ∧
    (CI_LAB_ReadUpLink smallCfg oneGood initGlobal).1.NetBufPtr =
      (if smallCfg.MAX_INGEST_PKTS = 0 then none
        else (oneGood 1).getInputBuffer.map Buf.addr) :=
  ⟨(C8_single_datagram_amended smallCfg oneGood initGlobal (by decide) rfl (by decide)
      (by decide) (fun i hi => by simp [oneGood, Nat.ne_of_gt hi, idleIter])).1,
   (C8_single_datagram_amended smallCfg oneGood initGlobal (by decide) rfl (by decide)
      (by decide) (fun i hi => by simp [oneGood, Nat.ne_of_gt hi, idleIter])).2.2.2.1⟩

end CI_LAB
